import Mathlib

/-!
A shallow embedding of the `subtr-actor` Rocket League replay-processing
library, verified against its natural-language specification.

Modelling conventions:
* `f32` values (times, deltas, coordinates, derived boost) are embedded as
  exact rationals `ℚ`; `u8`/`usize` as `ℕ`; the `i32` id newtypes as `ℤ`.
* Rust `HashMap`s become association lists with insert-replace semantics
  (`alInsert` / `alRemove` / `alLookup`); iteration order of a `HashMap` is
  unspecified in Rust, and no theorem below depends on it.
* Fallible Rust functions returning `SubtrActorResult<T>` become
  `Except Error T`; a Rust `panic!`/`unwrap` on an error path is modelled by
  an outer `Option` whose `none` is the panic.
* Transcendental operations supplied by the external `glam` crate
  (vector length, normalisation, axis-angle rotation, quaternion slerp) are
  abstracted into a `GlamOps` record of function parameters; everything
  algebraic is modelled concretely.  Theorems quantify over all `GlamOps`.
* The potentially non-terminating driver loop of `ReplayProcessor::process`
  is given fuel; `none` for every fuel amount models divergence.
-/

namespace SubtrActor

/-- Actor identifier: the `boxcars::ActorId` newtype over `i32`. -/
abbrev ActorId := Int

/-- Object (class/archetype) identifier: the `boxcars::ObjectId` newtype over `i32`. -/
abbrev ObjectId := Int

/-- Stable player identity (`PlayerId = boxcars::RemoteId`).  The
platform-tagged structure is abstracted to a number; the library only ever
compares player ids for equality and clones them. -/
abbrev PlayerId := Nat

/-- Three-component `f32` vector (`boxcars::Vector3f`), over `ℚ`. -/
structure Vec3 where
  x : ℚ
  y : ℚ
  z : ℚ
deriving DecidableEq

instance : Add Vec3 := ⟨fun a b => ⟨a.x + b.x, a.y + b.y, a.z + b.z⟩⟩

instance : Sub Vec3 := ⟨fun a b => ⟨a.x - b.x, a.y - b.y, a.z - b.z⟩⟩

instance : SMul ℚ Vec3 := ⟨fun c v => ⟨c * v.x, c * v.y, c * v.z⟩⟩

/-- The zero vector, used where the source writes `Vector3f { x: 0.0, y: 0.0, z: 0.0 }`. -/
def Vec3.zero : Vec3 := ⟨0, 0, 0⟩

/-- Component-wise linear interpolation, as `glam::Vec3::lerp`:
`a + (b - a) * s`. -/
def Vec3.lerp (a b : Vec3) (s : ℚ) : Vec3 := a + s • (b - a)

/-- Quaternion (`boxcars::Quaternion`), over `ℚ`. -/
structure Quat where
  x : ℚ
  y : ℚ
  z : ℚ
  w : ℚ
deriving DecidableEq

/-- Hamilton product, as `glam`'s quaternion multiplication. -/
def Quat.mul (a b : Quat) : Quat :=
  ⟨a.w * b.x + a.x * b.w + a.y * b.z - a.z * b.y,
   a.w * b.y - a.x * b.z + a.y * b.w + a.z * b.x,
   a.w * b.z + a.x * b.y - a.y * b.x + a.z * b.w,
   a.w * b.w - a.x * b.x - a.y * b.y - a.z * b.z⟩

/-- Rigid body state (`boxcars::RigidBody`). -/
structure RigidBody where
  sleeping : Bool
  location : Vec3
  rotation : Quat
  linear_velocity : Option Vec3
  angular_velocity : Option Vec3
deriving DecidableEq

/-- Demolition effect (`boxcars::DemolishFx`): attacker / victim car actors
and their velocities. -/
structure DemolishFx where
  attacker : ActorId
  victim : ActorId
  attack_velocity : Vec3
  victim_velocity : Vec3
deriving DecidableEq

/-- The subset of the `boxcars::Attribute` sum type consumed by the core. -/
inductive Attr where
  | byte (v : ℕ)
  | int (v : ℤ)
  | float (v : ℚ)
  | boolean (v : Bool)
  | str (v : String)
  | activeActor (actor : ActorId)
  | uniqueId (remote_id : PlayerId)
  | rigidBody (rb : RigidBody)
  | demolishFx (d : DemolishFx)
  | replicatedBoost (boost_amount : ℕ)
deriving DecidableEq

/-- Tag string of an attribute, as `attribute_to_tag` in `error.rs`
(restricted to the modelled variants). -/
def attribute_to_tag : Attr → String
  | .byte _ => "AttributeTag::Byte"
  | .int _ => "AttributeTag::Int"
  | .float _ => "AttributeTag::Float"
  | .boolean _ => "AttributeTag::Boolean"
  | .str _ => "AttributeTag::String"
  | .activeActor _ => "AttributeTag::ActiveActor"
  | .uniqueId _ => "AttributeTag::UniqueId"
  | .rigidBody _ => "AttributeTag::RigidBody"
  | .demolishFx _ => "AttributeTag::DemolishFx"
  | .replicatedBoost _ => "AttributeTag::ReplicatedBoost"

/-- Actor creation record (`boxcars::NewActor`; the initial trajectory is
only used for a debug log line and is omitted). -/
structure NewActor where
  actor_id : ActorId
  name_id : Option Int
  object_id : ObjectId
deriving DecidableEq

/-- Attribute update record (`boxcars::UpdatedAttribute`). -/
structure UpdatedAttribute where
  actor_id : ActorId
  object_id : ObjectId
  attr : Attr
deriving DecidableEq

/-- One network frame (`boxcars::Frame`). -/
structure Frame where
  time : ℚ
  delta : ℚ
  new_actors : List NewActor
  deleted_actors : List ActorId
  updated_actors : List UpdatedAttribute
deriving DecidableEq

/-- The parts of `boxcars::Replay` the processor consumes: the object-name
table (index = `ObjectId`) and the optional network frames. -/
structure Replay where
  objects : List String
  network_frames : Option (List Frame)

/-- Association-list map with insert-replace semantics, standing in for
Rust's `HashMap`. -/
abbrev AList (K V : Type) := List (K × V)

/-- Key lookup. -/
def alLookup {K V : Type} [DecidableEq K] : AList K V → K → Option V
  | [], _ => none
  | (k', v) :: rest, k => if k' = k then some v else alLookup rest k

/-- Remove a key's binding. -/
def alRemove {K V : Type} [DecidableEq K] : AList K V → K → AList K V
  | [], _ => []
  | (k', v) :: rest, k => if k' = k then alRemove rest k else (k', v) :: alRemove rest k

/-- Insert, replacing any previous binding of the key. -/
def alInsert {K V : Type} [DecidableEq K] (m : AList K V) (k : K) (v : V) : AList K V :=
  (k, v) :: alRemove m k

/-- Keys of the map. -/
def alKeys {K V : Type} (m : AList K V) : List K := m.map (·.1)

theorem alLookup_alRemove {K V : Type} [DecidableEq K] (m : AList K V) (k k' : K) :
    alLookup (alRemove m k) k' = if k' = k then none else alLookup m k' := by
  induction m with
  | nil => simp [alRemove, alLookup]
  | cons p rest ih =>
    obtain ⟨pk, pv⟩ := p
    simp only [alRemove]
    by_cases hpk : pk = k
    · rw [if_pos hpk, ih]
      by_cases hk' : k' = k
      · simp [hk']
      · have : ¬ pk = k' := by
          intro h; exact hk' (h ▸ hpk)
        simp [hk', alLookup, this]
    · rw [if_neg hpk]
      simp only [alLookup]
      by_cases hpk' : pk = k'
      · have : ¬ k' = k := by
          intro h; exact hpk (hpk'.trans h)
        simp [hpk', this]
      · rw [if_neg hpk', if_neg hpk', ih]

theorem alLookup_alInsert {K V : Type} [DecidableEq K] (m : AList K V) (k k' : K) (v : V) :
    alLookup (alInsert m k v) k' = if k' = k then some v else alLookup m k' := by
  simp only [alInsert, alLookup]
  by_cases h : k = k'
  · simp [h]
  · have h' : ¬ k' = k := fun hh => h hh.symm
    simp [h, h', alLookup_alRemove]

/-- The error taxonomy (`SubtrActorErrorVariant`), restricted to the variants
reachable from the modelled code paths.  The Rust struct additionally carries
a backtrace, which has no semantic content. -/
inductive Error where
  | NoNetworkFrames
  | FrameIndexOutOfBounds
  | InconsistentPlayerSet (found original : List PlayerId)
  | NoUpdateAfterFrame (actor_id : ActorId) (object_id : ObjectId) (frame_index : ℕ)
  | UnexpectedAttributeType (expected_type actual_type : String)
  | NoMatchingPlayerId (actor_id : ActorId)
  | NoGameActor
  | ActorIdAlreadyExists (actor_id : ActorId) (object_id : ObjectId)
  | ActorNotFound (name : String) (player_id : PlayerId)
  | NoStateForActorId (actor_id : ActorId)
  | ObjectIdNotFound (name : String)
  | DerivedKeyValueNotFound (name : String)
  | BallActorNotFound
  | UnknownPlayerTeam (player_id : PlayerId)
  | EmptyTeamName (player_id : PlayerId)
  | FinishProcessingEarly
  | InterpolationTimeOrderError (start_time t end_time : ℚ)
  | UpdatedActorIdDoesNotExist (u : UpdatedAttribute)
  | PropertyNotFoundInState (property : String)
  | CouldNotBuildReplayMeta
deriving DecidableEq

/-- Typed attribute extraction, as the `attribute_match!` pattern in
`processor.rs`.  Note that the Rust code fills `expected_type` with
`stringify!(path)`, i.e. the literal string "path". -/
def Attr.asByte : Attr → Except Error ℕ
  | .byte v => .ok v
  | a => .error (.UnexpectedAttributeType "path" (attribute_to_tag a))

/-- Extraction of an `Int` attribute (`attribute_match!` at `Attribute::Int`). -/
def Attr.asInt : Attr → Except Error ℤ
  | .int v => .ok v
  | a => .error (.UnexpectedAttributeType "path" (attribute_to_tag a))

/-- Extraction of a `Float` attribute. -/
def Attr.asFloat : Attr → Except Error ℚ
  | .float v => .ok v
  | a => .error (.UnexpectedAttributeType "path" (attribute_to_tag a))

/-- Extraction of a `String` attribute. -/
def Attr.asString : Attr → Except Error String
  | .str v => .ok v
  | a => .error (.UnexpectedAttributeType "path" (attribute_to_tag a))

/-- Extraction of an `ActiveActor` attribute. -/
def Attr.asActiveActor : Attr → Except Error ActorId
  | .activeActor v => .ok v
  | a => .error (.UnexpectedAttributeType "path" (attribute_to_tag a))

/-- Extraction of a `UniqueId` attribute (its `remote_id` component). -/
def Attr.asUniqueId : Attr → Except Error PlayerId
  | .uniqueId v => .ok v
  | a => .error (.UnexpectedAttributeType "path" (attribute_to_tag a))

/-- Extraction of a `RigidBody` attribute. -/
def Attr.asRigidBody : Attr → Except Error RigidBody
  | .rigidBody v => .ok v
  | a => .error (.UnexpectedAttributeType "path" (attribute_to_tag a))

/-- Extraction of a `DemolishFx` attribute. -/
def Attr.asDemolishFx : Attr → Except Error DemolishFx
  | .demolishFx v => .ok v
  | a => .error (.UnexpectedAttributeType "path" (attribute_to_tag a))

/-!  Rigid-body extrapolation and interpolation (`util.rs`). -/

/-- The operations the source obtains from the external `glam` crate that are
not exactly representable over `ℚ` (they involve square roots and
trigonometric functions).  The embedding is parameterised over them; every
theorem about the geometry quantifies over all such records. -/
structure GlamOps where
  length : Vec3 → ℚ
  normalize_or_zero : Vec3 → Vec3
  from_axis_angle : Vec3 → ℚ → Quat
  slerp : Quat → Quat → ℚ → Quat

/-- Rotation update of `apply_velocities_to_rigid_body`
(`apply_angular_velocity` in `util.rs`). -/
def apply_angular_velocity (ops : GlamOps) (rigid_body : RigidBody) (time_delta : ℚ) : Quat :=
  let rbav := rigid_body.angular_velocity.getD Vec3.zero
  let magnitude := ops.length rbav
  let angular_velocity_unit_vector := ops.normalize_or_zero rbav
  let rotation := rigid_body.rotation
  if ops.length angular_velocity_unit_vector ≠ 0 then
    rotation.mul (ops.from_axis_angle angular_velocity_unit_vector (magnitude * time_delta))
  else
    rotation

/-- Rigid-body extrapolation (`apply_velocities_to_rigid_body` in `util.rs`). -/
def apply_velocities_to_rigid_body (ops : GlamOps) (rigid_body : RigidBody)
    (time_delta : ℚ) : RigidBody :=
  if time_delta = 0 then rigid_body
  else
    let linear_velocity := rigid_body.linear_velocity.getD Vec3.zero
    { rigid_body with
      location := rigid_body.location + time_delta • linear_velocity
      rotation := apply_angular_velocity ops rigid_body time_delta }

/-- Rigid-body interpolation (`get_interpolated_rigid_body` in `util.rs`). -/
def get_interpolated_rigid_body (ops : GlamOps) (start_body : RigidBody) (start_time : ℚ)
    (end_body : RigidBody) (end_time : ℚ) (time : ℚ) : Except Error RigidBody :=
  if ¬ (start_time ≤ time ∧ time ≤ end_time) then
    .error (.InterpolationTimeOrderError start_time time end_time)
  else
    let duration := end_time - start_time
    let interpolation_amount := (time - start_time) / duration
    let interpolated_location := Vec3.lerp start_body.location end_body.location
      interpolation_amount
    let interpolated_rotation := ops.slerp start_body.rotation end_body.rotation
      interpolation_amount
    .ok { location := interpolated_location
          rotation := interpolated_rotation
          sleeping := start_body.sleeping
          linear_velocity := start_body.linear_velocity
          angular_velocity := start_body.angular_velocity }

/-- Search direction (`SearchDirection` in `util.rs`). -/
inductive SearchDirection where
  | Forward
  | Backward
deriving DecidableEq

/-- Directional search in a list (`find_in_direction` in `util.rs`): forward
search starts at `current_index + 1`, backward search covers indices strictly
below `current_index`, nearest first. -/
def find_in_direction {T R : Type} (items : List T) (current_index : ℕ)
    (direction : SearchDirection) (predicate : T → Option R) : Option (ℕ × R) :=
  let indexed : List (ℕ × T) :=
    match direction with
    | .Forward =>
      ((items.drop (current_index + 1)).enum.map
        (fun p => (p.1 + current_index + 1, p.2)))
    | .Backward => ((items.take current_index).enum).reverse
  indexed.findSome? (fun p => (predicate p.2).map (fun r => (p.1, r)))

/-!  Actor state modelling (`actor_state.rs`). -/

/-- State of an individual actor (`ActorState`). -/
structure ActorState where
  attributes : AList ObjectId (Attr × ℕ)
  derived_attributes : AList String (Attr × ℕ)
  object_id : ObjectId
  name_id : Option Int
deriving DecidableEq

/-- Fresh state for a newly created actor (`ActorState::new`). -/
def ActorState.new (new_actor : NewActor) : ActorState :=
  { attributes := []
    derived_attributes := []
    object_id := new_actor.object_id
    name_id := new_actor.name_id }

/-- State of all live actors (`ActorStateModeler`).  The `object_id_to_name`
map of the source is only read to emit a debug log line about boost pads and
is omitted. -/
structure ActorStateModeler where
  actor_states : AList ActorId ActorState
  actor_ids_by_type : AList ObjectId (List ActorId)
deriving DecidableEq

/-- The empty modeler (`ActorStateModeler::new`). -/
def ActorStateModeler.new : ActorStateModeler := ⟨[], []⟩

/-- Deletion of an actor (`ActorStateModeler::delete_actor`): removes the
forward-map entry (failing on an unknown id) and purges the id from the
inverse index under the actor's `object_id`. -/
def ActorStateModeler.delete_actor (m : ActorStateModeler) (actor_id : ActorId) :
    Except Error (ActorStateModeler × ActorState) :=
  match alLookup m.actor_states actor_id with
  | none => .error (.NoStateForActorId actor_id)
  | some state =>
    let ids := (alLookup m.actor_ids_by_type state.object_id).getD []
    .ok ({ actor_states := alRemove m.actor_states actor_id
           actor_ids_by_type :=
             alInsert m.actor_ids_by_type state.object_id
               (ids.filter (fun x => ¬ x = actor_id)) },
         state)

/-- Creation of an actor (`ActorStateModeler::new_actor`): a repeated
creation with a matching `object_id` is a no-op, with a differing `object_id`
an error; otherwise a fresh state is inserted and the id appended to the
inverse index. -/
def ActorStateModeler.new_actor (m : ActorStateModeler) (new_actor : NewActor) :
    Except Error ActorStateModeler :=
  match alLookup m.actor_states new_actor.actor_id with
  | some state =>
    if ¬ state.object_id = new_actor.object_id then
      .error (.ActorIdAlreadyExists new_actor.actor_id new_actor.object_id)
    else
      .ok m
  | none =>
    let ids := (alLookup m.actor_ids_by_type new_actor.object_id).getD []
    .ok { actor_states :=
            alInsert m.actor_states new_actor.actor_id (ActorState.new new_actor)
          actor_ids_by_type :=
            alInsert m.actor_ids_by_type new_actor.object_id
              (ids ++ [new_actor.actor_id]) }

/-- Attribute update (`ActorStateModeler::update_attribute`): fails when the
actor is unknown, otherwise stores `(attribute, frame_index)` under the
update's `object_id`. -/
def ActorStateModeler.update_attribute (m : ActorStateModeler)
    (update : UpdatedAttribute) (frame_index : ℕ) : Except Error ActorStateModeler :=
  match alLookup m.actor_states update.actor_id with
  | none => .error (.UpdatedActorIdDoesNotExist update)
  | some state =>
    .ok { m with
          actor_states :=
            alInsert m.actor_states update.actor_id
              { state with
                attributes :=
                  alInsert state.attributes update.object_id
                    (update.attr, frame_index) } }

/-- One frame of actor bookkeeping (`ActorStateModeler::process_frame`):
deletions first, then creations, then attribute updates, each stopping at the
first error. -/
def ActorStateModeler.process_frame (m : ActorStateModeler) (frame : Frame)
    (frame_index : ℕ) : Except Error ActorStateModeler := do
  let m ← frame.deleted_actors.foldlM
    (fun acc n => (acc.delete_actor n).map (·.1)) m
  let m ← frame.new_actors.foldlM (fun acc n => acc.new_actor n) m
  frame.updated_actors.foldlM (fun acc u => acc.update_attribute u frame_index) m

/-!  Object-name constants (`constants.rs`). -/

/-- Archetype name of boost components. -/
def BOOST_TYPE : String := "Archetypes.CarComponents.CarComponent_Boost"

/-- Archetype name of cars. -/
def CAR_TYPE : String := "Archetypes.Car.Car_Default"

/-- Archetype name of dodge components. -/
def DODGE_TYPE : String := "Archetypes.CarComponents.CarComponent_Dodge"

/-- Archetype name of double-jump components. -/
def DOUBLE_JUMP_TYPE : String := "Archetypes.CarComponents.CarComponent_DoubleJump"

/-- Archetype name of the game-event (metadata) actor. -/
def GAME_TYPE : String := "Archetypes.GameEvent.GameEvent_Soccar"

/-- Archetype name of jump components. -/
def JUMP_TYPE : String := "Archetypes.CarComponents.CarComponent_Jump"

/-- Key of the car attribute pointing at the owning player actor. -/
def PLAYER_REPLICATION_KEY : String := "Engine.Pawn:PlayerReplicationInfo"

/-- Archetype name of player actors. -/
def PLAYER_TYPE : String := "TAGame.Default__PRI_TA"

/-- Key of the legacy discrete boost byte. -/
def BOOST_AMOUNT_KEY : String := "TAGame.CarComponent_Boost_TA:ReplicatedBoostAmount"

/-- Key of the newer replicated boost attribute. -/
def BOOST_REPLICATED_KEY : String := "TAGame.CarComponent_Boost_TA:ReplicatedBoost"

/-- Key of the component-active byte. -/
def COMPONENT_ACTIVE_KEY : String := "TAGame.CarComponent_TA:ReplicatedActive"

/-- Key of the demolish effect attribute on cars. -/
def DEMOLISH_GOAL_EXPLOSION_KEY : String := "TAGame.Car_TA:ReplicatedDemolishGoalExplosion"

/-- Derived key shadowing the last wire-observed boost byte. -/
def LAST_BOOST_AMOUNT_KEY : String := "TAGame.CarComponent_Boost_TA:ReplicatedBoostAmount.Last"

/-- Key of the player-name attribute. -/
def PLAYER_NAME_KEY : String := "Engine.PlayerReplicationInfo:PlayerName"

/-- Key of the rigid-body state attribute. -/
def RIGID_BODY_STATE_KEY : String := "TAGame.RBActor_TA:ReplicatedRBState"

/-- Key of the seconds-remaining attribute on the game actor. -/
def SECONDS_REMAINING_KEY : String := "TAGame.GameEvent_Soccar_TA:SecondsRemaining"

/-- Key of the player-team attribute. -/
def TEAM_KEY : String := "Engine.PlayerReplicationInfo:Team"

/-- Key of the player unique-id attribute. -/
def UNIQUE_ID_KEY : String := "Engine.PlayerReplicationInfo:UniqueId"

/-- Key of the component attribute pointing at the owning car. -/
def VEHICLE_KEY : String := "TAGame.CarComponent_TA:Vehicle"

/-- Ball archetype names (`BALL_TYPES`). -/
def BALL_TYPES : List String :=
  ["Archetypes.Ball.Ball_Default", "Archetypes.Ball.Ball_Basketball",
   "Archetypes.Ball.Ball_Puck", "Archetypes.Ball.CubeBall",
   "Archetypes.Ball.Ball_Breakout"]

/-- Boost drain rate (`BOOST_USED_PER_SECOND = 80.0 / 0.93`), exactly. -/
def BOOST_USED_PER_SECOND : ℚ := 80 / (93 / 100)

/-- Size of the demolish deduplication window in frames. -/
def MAX_DEMOLISH_KNOWN_FRAMES_PASSED : ℕ := 100

/-!  The replay processor (`processor.rs`). -/

/-- A recorded demolition event (`DemolishInfo` in `util.rs`). -/
structure DemolishInfo where
  time : ℚ
  seconds_remaining : ℤ
  frame : ℕ
  attacker : PlayerId
  victim : PlayerId
  attacker_velocity : Vec3
  victim_velocity : Vec3
deriving DecidableEq

/-- The processor state (`ReplayProcessor`).  The `object_id_to_name` inverse
dictionary of the source only serves the team-name query and debug printers,
none of which participate in the claims; the replay reference is passed
explicitly where needed. -/
structure ReplayProcessor where
  actor_state : ActorStateModeler
  name_to_object_id : AList String ObjectId
  ball_actor_id : Option ActorId
  team_zero : List PlayerId
  team_one : List PlayerId
  player_to_actor_id : AList PlayerId ActorId
  player_to_car : AList ActorId ActorId
  player_to_team : AList ActorId ActorId
  car_to_boost : AList ActorId ActorId
  car_to_jump : AList ActorId ActorId
  car_to_double_jump : AList ActorId ActorId
  car_to_dodge : AList ActorId ActorId
  demolishes : List DemolishInfo
  known_demolishes : List (DemolishFx × ℕ)

/-- The object-name dictionary built by `ReplayProcessor::new`: index `i` of
the replay's object table becomes `ObjectId i`. -/
def buildNameToObjectId (objects : List String) : AList String ObjectId :=
  objects.enum.foldl (fun m p => alInsert m p.2 (Int.ofNat p.1)) []

/-- Name-to-object-id lookup (`get_object_id_for_key`). -/
def ReplayProcessor.get_object_id_for_key (p : ReplayProcessor) (name : String) :
    Except Error ObjectId :=
  match alLookup p.name_to_object_id name with
  | some oid => .ok oid
  | none => .error (.ObjectIdNotFound name)

/-- Actor ids registered under an object id (`get_actor_ids_by_object_id`);
empty when the type has never been seen. -/
def ReplayProcessor.get_actor_ids_by_object_id (p : ReplayProcessor) (object_id : ObjectId) :
    List ActorId :=
  (alLookup p.actor_state.actor_ids_by_type object_id).getD []

/-- Actor ids registered under an archetype name (`get_actor_ids_by_type`). -/
def ReplayProcessor.get_actor_ids_by_type (p : ReplayProcessor) (name : String) :
    Except Error (List ActorId) :=
  (p.get_object_id_for_key name).map p.get_actor_ids_by_object_id

/-- Actor state lookup (`get_actor_state`). -/
def ReplayProcessor.get_actor_state (p : ReplayProcessor) (actor_id : ActorId) :
    Except Error ActorState :=
  match alLookup p.actor_state.actor_states actor_id with
  | some s => .ok s
  | none => .error (.NoStateForActorId actor_id)

/-- Attribute-with-index lookup in a map (`get_attribute_and_updated`). -/
def ReplayProcessor.get_attribute_and_updated (p : ReplayProcessor)
    (map : AList ObjectId (Attr × ℕ)) (property : String) : Except Error (Attr × ℕ) := do
  let oid ← p.get_object_id_for_key property
  match alLookup map oid with
  | some v => .ok v
  | none => .error (.PropertyNotFoundInState property)

/-- Attribute lookup in a map (`get_attribute`). -/
def ReplayProcessor.get_attribute (p : ReplayProcessor)
    (map : AList ObjectId (Attr × ℕ)) (property : String) : Except Error Attr :=
  (p.get_attribute_and_updated map property).map (·.1)

/-- Attribute lookup on an actor (`get_actor_attribute`). -/
def ReplayProcessor.get_actor_attribute (p : ReplayProcessor) (actor_id : ActorId)
    (property : String) : Except Error Attr := do
  let s ← p.get_actor_state actor_id
  p.get_attribute s.attributes property

/-- Iteration of `(actor_id, state)` pairs of one object id
(`iter_actors_by_object_id`).  The source unwraps each state lookup,
justified by the modeler invariant that ids in the inverse index are live;
ids violating that invariant are skipped here. -/
def ReplayProcessor.iter_actors_by_object_id (p : ReplayProcessor) (object_id : ObjectId) :
    List (ActorId × ActorState) :=
  (p.get_actor_ids_by_object_id object_id).filterMap
    (fun id => (alLookup p.actor_state.actor_states id).map (fun s => (id, s)))

/-- Iteration of one archetype's actors (`iter_actors_by_type_err`). -/
def ReplayProcessor.iter_actors_by_type_err (p : ReplayProcessor) (name : String) :
    Except Error (List (ActorId × ActorState)) :=
  (p.get_object_id_for_key name).map p.iter_actors_by_object_id

/-- Iteration of one archetype's actors, `Option`-valued (`iter_actors_by_type`). -/
def ReplayProcessor.iter_actors_by_type (p : ReplayProcessor) (name : String) :
    Option (List (ActorId × ActorState)) :=
  (p.iter_actors_by_type_err name).toOption

/-- The canonical roster: team zero then team one (`iter_player_ids_in_order`). -/
def ReplayProcessor.iter_player_ids_in_order (p : ReplayProcessor) : List PlayerId :=
  p.team_zero ++ p.team_one

/-- Number of rostered players (`player_count`). -/
def ReplayProcessor.player_count (p : ReplayProcessor) : ℕ :=
  p.iter_player_ids_in_order.length

/-- Post-processing consistency check (`check_player_id_set`): the keys of
`player_to_actor_id` must equal the roster as sets. -/
def ReplayProcessor.check_player_id_set (p : ReplayProcessor) : Except Error Unit :=
  let known_players := alKeys p.player_to_actor_id
  let original_players := p.iter_player_ids_in_order
  if original_players.toFinset = known_players.toFinset then .ok ()
  else .error (.InconsistentPlayerSet known_players original_players)

/-- One `maintain_link!` expansion inside `update_mappings`: when the update
carries `attr_key` and its actor is registered under `actor_type`, extract
the typed attribute value and insert the derived `(key, value)` pair into the
given index map.  Mirrors the evaluation order of the source: the object id
of `attr_key` is resolved (and can fail) before the comparison. -/
def maintain_link {α K : Type} [DecidableEq K] (p : ReplayProcessor)
    (map : AList K ActorId) (u : UpdatedAttribute) (actor_type attr_key : String)
    (extract : Attr → Except Error α)
    (get_key : ActorId → α → K) (get_value : ActorId → α → ActorId) :
    Except Error (AList K ActorId) := do
  let oid ← p.get_object_id_for_key attr_key
  if u.object_id = oid then
    let ids ← p.get_actor_ids_by_type actor_type
    if u.actor_id ∈ ids then
      let value ← (p.get_actor_attribute u.actor_id attr_key) >>= extract
      pure (alInsert map (get_key u.actor_id value) (get_value u.actor_id value))
    else
      pure map
  else
    pure map

/-- The seven link-maintenance steps applied to a single attribute update, in
source order (`update_mappings` loop body). -/
def ReplayProcessor.update_mappings_one (p : ReplayProcessor) (u : UpdatedAttribute) :
    Except Error ReplayProcessor := do
  let m ← maintain_link p p.player_to_actor_id u PLAYER_TYPE UNIQUE_ID_KEY
    Attr.asUniqueId (fun _ remote_id => remote_id) (fun id _ => id)
  let p := { p with player_to_actor_id := m }
  let m ← maintain_link p p.player_to_team u PLAYER_TYPE TEAM_KEY
    Attr.asActiveActor (fun id _ => id) (fun _ a => a)
  let p := { p with player_to_team := m }
  let m ← maintain_link p p.player_to_car u CAR_TYPE PLAYER_REPLICATION_KEY
    Attr.asActiveActor (fun _ a => a) (fun id _ => id)
  let p := { p with player_to_car := m }
  let m ← maintain_link p p.car_to_boost u BOOST_TYPE VEHICLE_KEY
    Attr.asActiveActor (fun _ a => a) (fun id _ => id)
  let p := { p with car_to_boost := m }
  let m ← maintain_link p p.car_to_dodge u DODGE_TYPE VEHICLE_KEY
    Attr.asActiveActor (fun _ a => a) (fun id _ => id)
  let p := { p with car_to_dodge := m }
  let m ← maintain_link p p.car_to_jump u JUMP_TYPE VEHICLE_KEY
    Attr.asActiveActor (fun _ a => a) (fun id _ => id)
  let p := { p with car_to_jump := m }
  let m ← maintain_link p p.car_to_double_jump u DOUBLE_JUMP_TYPE VEHICLE_KEY
    Attr.asActiveActor (fun _ a => a) (fun id _ => id)
  pure { p with car_to_double_jump := m }

/-- Relationship-index maintenance for one frame (`update_mappings`): all
updates in order, then removal of deleted actors from `player_to_car`. -/
def ReplayProcessor.update_mappings (p : ReplayProcessor) (frame : Frame) :
    Except Error ReplayProcessor := do
  let p ← frame.updated_actors.foldlM ReplayProcessor.update_mappings_one p
  pure { p with
         player_to_car :=
           frame.deleted_actors.foldl (fun m a => alRemove m a) p.player_to_car }

/-- Ball discovery (`find_ball_actor`): the first actor of any known ball
archetype, in `BALL_TYPES` order. -/
def ReplayProcessor.find_ball_actor (p : ReplayProcessor) : Option ActorId :=
  ((((BALL_TYPES.filterMap p.iter_actors_by_type).flatten).map (·.1)).head?)

/-- Ball-id refresh (`update_ball_id`): a deleted ball id is cleared; an
unset id is re-discovered and then immediately re-checked against the
frame's deletions (the source does this with one level of recursion). -/
def ReplayProcessor.update_ball_id (p : ReplayProcessor) (frame : Frame) :
    Except Error ReplayProcessor :=
  match p.ball_actor_id with
  | some actor_id =>
    if actor_id ∈ frame.deleted_actors then .ok { p with ball_actor_id := none }
    else .ok p
  | none =>
    match p.find_ball_actor with
    | some actor_id =>
      if actor_id ∈ frame.deleted_actors then .ok { p with ball_actor_id := none }
      else .ok { p with ball_actor_id := some actor_id }
    | none => .ok { p with ball_actor_id := none }

/-- Wire and derived boost readings of one boost actor
(`get_current_boost_values`): the quintuple
`(amount, last, active_byte, derived, is_active)`. -/
def ReplayProcessor.get_current_boost_values (p : ReplayProcessor)
    (actor_state : ActorState) : ℕ × ℕ × ℕ × ℚ × Bool :=
  let amount_value : ℕ :=
    match p.get_attribute actor_state.attributes BOOST_REPLICATED_KEY with
    | .ok (.replicatedBoost replicated_boost) => replicated_boost
    | _ =>
      match (p.get_attribute actor_state.attributes BOOST_AMOUNT_KEY).bind Attr.asByte with
      | .ok b => b
      | .error _ => 0
  let active_value : ℕ :=
    match (p.get_attribute actor_state.attributes COMPONENT_ACTIVE_KEY).bind Attr.asByte with
    | .ok b => b
    | .error _ => 0
  let is_active : Bool := active_value % 2 == 1
  let derived_value : ℚ :=
    match alLookup actor_state.derived_attributes BOOST_AMOUNT_KEY with
    | some (Attr.float v, _) => v
    | _ => 0
  let last_attr : Attr :=
    match alLookup actor_state.derived_attributes LAST_BOOST_AMOUNT_KEY with
    | some pr => pr.1
    | none => Attr.byte amount_value
  let last_boost_amount : ℕ :=
    match last_attr with
    | Attr.byte b => b
    | _ => 0
  (amount_value, last_boost_amount, active_value, derived_value, is_active)

/-- The per-actor computation inside `update_boost_amounts`: the new derived
boost Float and the new `Last` shadow byte. -/
def boost_frame_value (p : ReplayProcessor) (actor_state : ActorState) (delta : ℚ) :
    ℚ × ℕ :=
  let (actor_amount_value, last_value, _, derived_value, is_active) :=
    p.get_current_boost_values actor_state
  let current_value : ℚ :=
    if actor_amount_value = last_value then derived_value else (actor_amount_value : ℚ)
  let current_value :=
    if is_active then current_value - delta * BOOST_USED_PER_SECOND else current_value
  (max current_value 0, actor_amount_value)

/-- Write-back of one boost update into the actor's derived attributes
(`update_boost_amounts` second loop body; the source unwraps the state
lookup, the actor being known to exist). -/
def writeBoostDerived (states : AList ActorId ActorState)
    (upd : ActorId × ℚ × ℕ) (frame_index : ℕ) : AList ActorId ActorState :=
  match alLookup states upd.1 with
  | none => states
  | some st =>
    alInsert states upd.1
      { st with
        derived_attributes :=
          alInsert
            (alInsert st.derived_attributes LAST_BOOST_AMOUNT_KEY
              (Attr.byte upd.2.2, frame_index))
            BOOST_AMOUNT_KEY (Attr.float upd.2.1, frame_index) }

/-- Boost integration for one frame (`update_boost_amounts`): compute every
boost actor's new value from the pre-frame state, then store all of them. -/
def ReplayProcessor.update_boost_amounts (p : ReplayProcessor) (frame : Frame)
    (frame_index : ℕ) : Except Error ReplayProcessor := do
  let actors ← p.iter_actors_by_type_err BOOST_TYPE
  let updates := actors.map (fun a =>
    let (current_value, actor_amount_value) := boost_frame_value p a.2 frame.delta
    (a.1, current_value, actor_amount_value))
  pure { p with
         actor_state :=
           { p.actor_state with
             actor_states :=
               updates.foldl (fun s u => writeBoostDerived s u frame_index)
                 p.actor_state.actor_states } }

/-- Deduplication test (`demolish_is_known`): a demolish is known when the
window holds the same value within `MAX_DEMOLISH_KNOWN_FRAMES_PASSED`
frames (absolute index distance via two checked subtractions). -/
def ReplayProcessor.demolish_is_known (p : ReplayProcessor) (demolish_fx : DemolishFx)
    (frame_index : ℕ) : Bool :=
  p.known_demolishes.any (fun e =>
    e.1 == demolish_fx &&
      max (frame_index - e.2) (e.2 - frame_index) < MAX_DEMOLISH_KNOWN_FRAMES_PASSED)

/-- Demolish effects visible on car actors this frame
(`get_active_demolish_fx`). -/
def ReplayProcessor.get_active_demolish_fx (p : ReplayProcessor) :
    Except Error (List DemolishFx) :=
  (p.iter_actors_by_type_err CAR_TYPE).map (fun actors =>
    actors.filterMap (fun a =>
      match (p.get_attribute a.2.attributes DEMOLISH_GOAL_EXPLOSION_KEY).bind
          Attr.asDemolishFx with
      | .ok d => some d
      | .error _ => none))

/-- The game-event actor (`get_metadata_actor_id`). -/
def ReplayProcessor.get_metadata_actor_id (p : ReplayProcessor) : Except Error ActorId := do
  let ids ← p.get_actor_ids_by_type GAME_TYPE
  match ids.head? with
  | some id => pure id
  | none => .error .NoGameActor

/-- Remaining match time (`get_seconds_remaining`). -/
def ReplayProcessor.get_seconds_remaining (p : ReplayProcessor) : Except Error ℤ := do
  let id ← p.get_metadata_actor_id
  (p.get_actor_attribute id SECONDS_REMAINING_KEY).bind Attr.asInt

/-- Inverse lookup car-actor → player-actor
(`get_player_actor_id_from_car_actor_id`). -/
def ReplayProcessor.get_player_actor_id_from_car_actor_id (p : ReplayProcessor)
    (actor_id : ActorId) : Except Error ActorId :=
  match p.player_to_car.find? (fun e => e.2 = actor_id) with
  | some e => .ok e.1
  | none => .error (.NoMatchingPlayerId actor_id)

/-- Inverse lookup player-actor → player id (`get_player_id_from_actor_id`). -/
def ReplayProcessor.get_player_id_from_actor_id (p : ReplayProcessor)
    (actor_id : ActorId) : Except Error PlayerId :=
  match p.player_to_actor_id.find? (fun e => e.2 = actor_id) with
  | some e => .ok e.1
  | none => .error (.NoMatchingPlayerId actor_id)

/-- Car actor to player id (`get_player_id_from_car_id`). -/
def ReplayProcessor.get_player_id_from_car_id (p : ReplayProcessor) (actor_id : ActorId) :
    Except Error PlayerId := do
  let player_actor ← p.get_player_actor_id_from_car_actor_id actor_id
  p.get_player_id_from_actor_id player_actor

/-- Construction of a demolish record (`build_demolish_info`). -/
def ReplayProcessor.build_demolish_info (p : ReplayProcessor) (demolish_fx : DemolishFx)
    (frame : Frame) (index : ℕ) : Except Error DemolishInfo := do
  let attacker ← p.get_player_id_from_car_id demolish_fx.attacker
  let victim ← p.get_player_id_from_car_id demolish_fx.victim
  let seconds_remaining ← p.get_seconds_remaining
  pure { time := frame.time
         seconds_remaining
         frame := index
         attacker
         victim
         attacker_velocity := demolish_fx.attack_velocity
         victim_velocity := demolish_fx.victim_velocity }

/-- Recording of one new demolish (the loop body of `update_demolishes`):
the resolved record is appended to the public log only when resolution
succeeds (failures are logged and skipped), and the effect is always
appended to the dedup window at the current index. -/
def demolish_record_step (frame : Frame) (index : ℕ) (acc : ReplayProcessor)
    (demolish : DemolishFx) : ReplayProcessor :=
  let acc' :=
    match acc.build_demolish_info demolish frame index with
    | .ok demolish_info => { acc with demolishes := acc.demolishes ++ [demolish_info] }
    | .error _ => acc
  { acc' with known_demolishes := acc'.known_demolishes ++ [(demolish, index)] }

/-- Demolish extraction for one frame (`update_demolishes`): every observed
effect that is not yet known is recorded. -/
def ReplayProcessor.update_demolishes (p : ReplayProcessor) (frame : Frame) (index : ℕ) :
    Except Error ReplayProcessor := do
  let active ← p.get_active_demolish_fx
  let new_demolishes := active.filter (fun d => ¬ p.demolish_is_known d index)
  pure (new_demolishes.foldl (demolish_record_step frame index) p)

/-- The per-frame state update block of `ReplayProcessor::process` (its first
five statements, in order). -/
def ReplayProcessor.process_frame_updates (p : ReplayProcessor) (frame : Frame)
    (index : ℕ) : Except Error ReplayProcessor := do
  let m ← p.actor_state.process_frame frame index
  let p := { p with actor_state := m }
  let p ← p.update_mappings frame
  let p ← p.update_ball_id frame
  let p ← p.update_boost_amounts frame index
  p.update_demolishes frame index

/-!  The collector protocol and the driver loop. -/

/-- Time-advance directive returned by collectors (`TimeAdvance`). -/
inductive TimeAdvance where
  | Time (t : ℚ)
  | NextFrame
deriving DecidableEq

/-- A collector (`Collector` trait): a state type `σ` and the
`process_frame` callback, which may fail, and otherwise returns the time
directive together with the updated collector state. -/
structure Collector (σ : Type) where
  process_frame : σ → ReplayProcessor → Frame → ℕ → ℚ → Except Error (TimeAdvance × σ)

/-- The inner `while current_time <= frame.time` loop of
`ReplayProcessor::process`, with fuel; `none` for every fuel amount models
divergence.  Returns the final `target_time` and collector state. -/
def collector_loop {σ : Type} (c : Collector σ) (p : ReplayProcessor) (frame : Frame)
    (index : ℕ) : ℕ → ℚ → TimeAdvance → σ → Option (Except Error (TimeAdvance × σ))
  | 0, current_time, target_time, s =>
    if current_time ≤ frame.time then none else some (.ok (target_time, s))
  | fuel + 1, current_time, target_time, s =>
    if current_time ≤ frame.time then
      match c.process_frame s p frame index current_time with
      | .error e => some (.error e)
      | .ok (ta, s') =>
        match ta with
        | .Time new_target => collector_loop c p frame index fuel new_target (.Time new_target) s'
        | .NextFrame => some (.ok (.NextFrame, s'))
    else
      some (.ok (target_time, s))

/-- The frame loop of `ReplayProcessor::process`: per-frame state updates,
then the collector loop, threading `target_time` across frames. -/
def process_loop {σ : Type} (c : Collector σ) (fuel : ℕ) :
    List Frame → ℕ → TimeAdvance → ReplayProcessor → σ →
      Option (Except Error (ReplayProcessor × σ))
  | [], _, _, p, s => some (.ok (p, s))
  | frame :: rest, index, target_time, p, s =>
    match p.process_frame_updates frame index with
    | .error e => some (.error e)
    | .ok p' =>
      let current_time :=
        match target_time with
        | .Time t => t
        | .NextFrame => frame.time
      match collector_loop c p' frame index fuel current_time target_time s with
      | none => none
      | some (.error e) => some (.error e)
      | some (.ok r) => process_loop c fuel rest (index + 1) r.1 p' r.2

/-- Unfolding equation of `process_loop` on a non-empty frame list. -/
theorem process_loop_cons_eq {σ : Type} (c : Collector σ) (fuel : ℕ) (frame : Frame)
    (rest : List Frame) (index : ℕ) (ta : TimeAdvance) (p : ReplayProcessor) (s : σ) :
    process_loop c fuel (frame :: rest) index ta p s =
      match p.process_frame_updates frame index with
      | .error e => some (.error e)
      | .ok p' =>
        let current_time :=
          match ta with
          | .Time t => t
          | .NextFrame => frame.time
        match collector_loop c p' frame index fuel current_time ta s with
        | none => none
        | some (.error e) => some (.error e)
        | some (.ok r) => process_loop c fuel rest (index + 1) r.1 p' r.2 := rfl

/-- The driver (`ReplayProcessor::process`): requires network frames, then
runs the frame loop starting from `TimeAdvance::NextFrame`.  The source
returns `Ok(())` on success with no further checks; the final processor and
collector states are surfaced here for the theorems. -/
def ReplayProcessor.process {σ : Type} (p : ReplayProcessor) (replay : Replay)
    (c : Collector σ) (s : σ) (fuel : ℕ) :
    Option (Except Error (ReplayProcessor × σ)) :=
  match replay.network_frames with
  | none => some (.error .NoNetworkFrames)
  | some frames => process_loop c fuel frames 0 .NextFrame p s

/-- The frame-rate decorator (`FrameRateDecorator` in `collector/decorator.rs`):
delegates to the inner collector, then coerces the returned advance so the
next invocation is at least `target_frame_duration` later. -/
def FrameRateDecorator {σ : Type} (target_frame_duration : ℚ) (collector : Collector σ) :
    Collector σ where
  process_frame s p frame frame_number current_time :=
    (collector.process_frame s p frame frame_number current_time).map
      (fun r =>
        let next_target := current_time + target_frame_duration
        (match r.1 with
         | .NextFrame => .Time next_target
         | .Time t => .Time (max t (current_time + target_frame_duration)),
         r.2))

/-!  Query API of the processor used by collectors. -/

/-- Player id to player actor id (`get_player_actor_id`). -/
def ReplayProcessor.get_player_actor_id (p : ReplayProcessor) (player_id : PlayerId) :
    Except Error ActorId :=
  match alLookup p.player_to_actor_id player_id with
  | some id => .ok id
  | none => .error (.ActorNotFound "ActorId" player_id)

/-- Player id to car actor id (`get_car_actor_id`). -/
def ReplayProcessor.get_car_actor_id (p : ReplayProcessor) (player_id : PlayerId) :
    Except Error ActorId := do
  let player_actor_id ← p.get_player_actor_id player_id
  match alLookup p.player_to_car player_actor_id with
  | some id => .ok id
  | none => .error (.ActorNotFound "Car" player_id)

/-- An actor's rigid body and the frame index of its last update
(`get_actor_rigid_body`). -/
def ReplayProcessor.get_actor_rigid_body (p : ReplayProcessor) (actor_id : ActorId) :
    Except Error (RigidBody × ℕ) := do
  let s ← p.get_actor_state actor_id
  let au ← p.get_attribute_and_updated s.attributes RIGID_BODY_STATE_KEY
  let rb ← au.1.asRigidBody
  pure (rb, au.2)

/-- Frame access by index (`get_frame`). -/
def get_frame (replay : Replay) (frame_index : ℕ) : Except Error Frame :=
  match replay.network_frames with
  | none => .error .NoNetworkFrames
  | some frames =>
    match frames[frame_index]? with
    | some f => .ok f
    | none => .error .FrameIndexOutOfBounds

/-- Directional search for the next or previous update of an actor/object
pair (`find_update_in_direction`). -/
def ReplayProcessor.find_update_in_direction (p : ReplayProcessor) (replay : Replay)
    (current_index : ℕ) (actor_id : ActorId) (object_id : ObjectId)
    (direction : SearchDirection) : Except Error (Attr × ℕ) :=
  match replay.network_frames with
  | none => .error .NoNetworkFrames
  | some frames =>
    let predicate := fun (frame : Frame) =>
      (frame.updated_actors.find?
        (fun u => u.actor_id == actor_id && u.object_id == object_id)).map (·.attr)
    match find_in_direction frames current_index direction predicate with
    | some r => .ok (r.2, r.1)
    | none => .error (.NoUpdateAfterFrame actor_id object_id current_index)

/-- Time-targeted rigid body query (`get_interpolated_actor_rigid_body`):
return the current sample if within `close_enough`, otherwise search toward
the requested time, return the found sample if it is close enough, and
otherwise interpolate the two samples ordered by time. -/
def ReplayProcessor.get_interpolated_actor_rigid_body (p : ReplayProcessor)
    (ops : GlamOps) (replay : Replay) (actor_id : ActorId) (time close_enough : ℚ) :
    Except Error RigidBody := do
  let br ← p.get_actor_rigid_body actor_id
  let frame_body := br.1
  let frame_index := br.2
  let frame_time := (← get_frame replay frame_index).time
  let time_and_frame_difference := time - frame_time
  if |time_and_frame_difference| ≤ |close_enough| then
    pure frame_body
  else
    let search_direction :=
      if time_and_frame_difference > 0 then SearchDirection.Forward
      else SearchDirection.Backward
    let object_id ← p.get_object_id_for_key RIGID_BODY_STATE_KEY
    let af ← p.find_update_in_direction replay frame_index actor_id object_id
      search_direction
    let found_time := (← get_frame replay af.2).time
    let found_body ← af.1.asRigidBody
    if |found_time - time| ≤ close_enough then
      pure found_body
    else
      match search_direction with
      | .Forward =>
        get_interpolated_rigid_body ops frame_body frame_time found_body found_time time
      | .Backward =>
        get_interpolated_rigid_body ops found_body found_time frame_body frame_time time

/-- A player's car rigid body (`get_player_rigid_body`): a failed car lookup
surfaces as the `ActorNotFound` error of `get_car_actor_id`. -/
def ReplayProcessor.get_player_rigid_body (p : ReplayProcessor) (player_id : PlayerId) :
    Except Error RigidBody := do
  let actor_id ← p.get_car_actor_id player_id
  (p.get_actor_rigid_body actor_id).map (·.1)

/-- Interpolated player rigid body (`get_interpolated_player_rigid_body`).
The source calls `.unwrap()` on `get_car_actor_id`, so a failed car lookup
panics instead of returning the error; the panic is the outer `none`. -/
def ReplayProcessor.get_interpolated_player_rigid_body (p : ReplayProcessor)
    (ops : GlamOps) (replay : Replay) (player_id : PlayerId) (time close_enough : ℚ) :
    Option (Except Error RigidBody) :=
  match p.get_car_actor_id player_id with
  | .error _ => none
  | .ok actor_id =>
    some (p.get_interpolated_actor_rigid_body ops replay actor_id time close_enough)

/-- The ball's rigid body (`get_ball_rigid_body`). -/
def ReplayProcessor.get_ball_rigid_body (p : ReplayProcessor) : Except Error RigidBody :=
  match p.ball_actor_id with
  | none => .error .BallActorNotFound
  | some actor_id => (p.get_actor_rigid_body actor_id).map (·.1)

/-- Whether the ball's rigid body exists and is not sleeping
(`ball_rigid_body_exists`); never fails. -/
def ReplayProcessor.ball_rigid_body_exists (p : ReplayProcessor) : Except Error Bool :=
  .ok (match p.get_ball_rigid_body with
       | .ok rb => !rb.sleeping
       | .error _ => false)

/-- A player's display name (`get_player_name`). -/
def ReplayProcessor.get_player_name (p : ReplayProcessor) (player_id : PlayerId) :
    Except Error String := do
  let actor_id ← p.get_player_actor_id player_id
  (p.get_actor_attribute actor_id PLAYER_NAME_KEY).bind Attr.asString

/-!  The NDArray collector (`collector/ndarray.rs`). -/

/-- Player record of the replay metadata (`PlayerInfo`).  The optional stats
map of the source is `.ok()`-guarded, never influences control flow, and is
omitted. -/
structure PlayerInfo where
  remote_id : PlayerId
  name : String
deriving DecidableEq

/-- Replay metadata (`ReplayMeta`); the cloned header list carries no
behaviour and is omitted. -/
structure ReplayMeta where
  team_zero : List PlayerInfo
  team_one : List PlayerInfo
deriving DecidableEq

/-- Total number of players in the metadata (`ReplayMeta::player_count`). -/
def ReplayMeta.player_count (m : ReplayMeta) : ℕ :=
  m.team_one.length + m.team_zero.length

/-- Short-circuiting collection of fallible results, as Rust's
`collect::<Result<Vec<_>, _>>()`. -/
def collectResults {α β : Type} (f : α → Except Error β) : List α → Except Error (List β)
  | [] => .ok []
  | a :: rest => do
    let b ← f a
    let bs ← collectResults f rest
    pure (b :: bs)

/-- Metadata construction (`get_replay_meta`): one `PlayerInfo` per rostered
player, failing when a player's name cannot be resolved. -/
def ReplayProcessor.get_replay_meta (p : ReplayProcessor) : Except Error ReplayMeta := do
  let get_player_info := fun (player_id : PlayerId) => do
    let name ← p.get_player_name player_id
    pure { remote_id := player_id, name : PlayerInfo }
  let team_zero ← collectResults get_player_info p.team_zero
  let team_one ← collectResults get_player_info p.team_one
  pure { team_zero, team_one }

/-- A global feature adder: column headers plus the feature function, whose
output length is pinned to the header count exactly as the `[F; N]` array of
the Rust `LengthCheckedFeatureAdder` trait pins it. -/
structure FeatureAdder (F : Type) where
  column_headers : List String
  get_features : ReplayProcessor → Frame → ℕ → ℚ →
    Except Error { l : List F // l.length = column_headers.length }

/-- Width of a global adder (`features_added`). -/
def FeatureAdder.features_added {F : Type} (fa : FeatureAdder F) : ℕ :=
  fa.column_headers.length

/-- A per-player feature adder (`PlayerFeatureAdder`), length-checked
likewise. -/
structure PlayerFeatureAdder (F : Type) where
  column_headers : List String
  get_features : PlayerId → ReplayProcessor → Frame → ℕ → ℚ →
    Except Error { l : List F // l.length = column_headers.length }

/-- Width of a per-player adder (`features_added`). -/
def PlayerFeatureAdder.features_added {F : Type} (pfa : PlayerFeatureAdder F) : ℕ :=
  pfa.column_headers.length

/-- The NDArray collector state (`NDArrayCollector`). -/
structure NDArrayCollector (F : Type) where
  feature_adders : List (FeatureAdder F)
  player_feature_adders : List (PlayerFeatureAdder F)
  data : List F
  replay_meta : Option ReplayMeta
  frames_added : ℕ

/-- A fresh collector (`NDArrayCollector::new`). -/
def NDArrayCollector.new {F : Type} (feature_adders : List (FeatureAdder F))
    (player_feature_adders : List (PlayerFeatureAdder F)) : NDArrayCollector F :=
  { feature_adders, player_feature_adders, data := [], replay_meta := none
    frames_added := 0 }

/-- Extension of the data vector by every global adder in order; on failure
the partially extended vector is kept, as the Rust `&mut Vec` keeps it. -/
def extendGlobalAdders {F : Type} (adders : List (FeatureAdder F)) (p : ReplayProcessor)
    (frame : Frame) (frame_number : ℕ) (current_time : ℚ) (data : List F) :
    List F × Option Error :=
  match adders with
  | [] => (data, none)
  | fa :: rest =>
    match fa.get_features p frame frame_number current_time with
    | .error e => (data, some e)
    | .ok row => extendGlobalAdders rest p frame frame_number current_time (data ++ row.1)

/-- Extension of the data vector by every per-player adder for one player. -/
def extendPlayerAddersOne {F : Type} (adders : List (PlayerFeatureAdder F))
    (player_id : PlayerId) (p : ReplayProcessor) (frame : Frame) (frame_number : ℕ)
    (current_time : ℚ) (data : List F) : List F × Option Error :=
  match adders with
  | [] => (data, none)
  | pfa :: rest =>
    match pfa.get_features player_id p frame frame_number current_time with
    | .error e => (data, some e)
    | .ok row =>
      extendPlayerAddersOne rest player_id p frame frame_number current_time (data ++ row.1)

/-- Extension of the data vector player by player, in roster order. -/
def extendPlayerAdders {F : Type} (players : List PlayerId)
    (adders : List (PlayerFeatureAdder F)) (p : ReplayProcessor) (frame : Frame)
    (frame_number : ℕ) (current_time : ℚ) (data : List F) : List F × Option Error :=
  match players with
  | [] => (data, none)
  | player_id :: rest =>
    match extendPlayerAddersOne adders player_id p frame frame_number current_time data with
    | (d, some e) => (d, some e)
    | (d, none) => extendPlayerAdders rest adders p frame frame_number current_time d

/-- One collector invocation (`NDArrayCollector::process_frame`): capture the
metadata on first call, skip row emission while the ball's rigid body is
absent or sleeping, otherwise append all global features and then all
per-player features in roster order and count the row. -/
def NDArrayCollector.process_frame {F : Type} (c : NDArrayCollector F)
    (p : ReplayProcessor) (frame : Frame) (frame_number : ℕ) (current_time : ℚ) :
    NDArrayCollector F × Except Error TimeAdvance :=
  let metaResult : Except Error (Option ReplayMeta) :=
    match c.replay_meta with
    | some m => .ok (some m)
    | none => (p.get_replay_meta).map some
  match metaResult with
  | .error e => (c, .error e)
  | .ok meta =>
    let c := { c with replay_meta := meta }
    match p.ball_rigid_body_exists with
    | .error e => (c, .error e)
    | .ok ball_exists =>
      if !ball_exists then (c, .ok .NextFrame)
      else
        match extendGlobalAdders c.feature_adders p frame frame_number current_time
            c.data with
        | (d, some e) => ({ c with data := d }, .error e)
        | (d, none) =>
          match extendPlayerAdders p.iter_player_ids_in_order c.player_feature_adders p
              frame frame_number current_time d with
          | (d', some e) => ({ c with data := d' }, .error e)
          | (d', none) =>
            ({ c with data := d', frames_added := c.frames_added + 1 }, .ok .NextFrame)

/-- Expected row width (`try_get_frame_feature_count`): the global widths
plus, per player of the captured metadata, the per-player widths. -/
def NDArrayCollector.try_get_frame_feature_count {F : Type} (c : NDArrayCollector F) :
    Except Error ℕ :=
  match c.replay_meta with
  | none => .error .CouldNotBuildReplayMeta
  | some meta =>
    let global_feature_count := (c.feature_adders.map (·.features_added)).sum
    let player_feature_count :=
      (c.player_feature_adders.map (fun pfa => pfa.features_added * meta.player_count)).sum
    .ok (global_feature_count + player_feature_count)

/-- Terminal operation (`get_meta_and_ndarray`): computes the row width,
asserts `data.len() == features_per_row * frames_added` (an assertion
failure panics: the outer `none`), and reshapes the data vector into a
`(frames_added, features_per_row)` array, here represented by the shape pair
and the row-major data. -/
def NDArrayCollector.get_meta_and_ndarray {F : Type} (c : NDArrayCollector F) :
    Option (Except Error (ReplayMeta × (ℕ × ℕ) × List F)) :=
  match c.try_get_frame_feature_count with
  | .error e => some (.error e)
  | .ok features_per_row =>
    let expected_length := features_per_row * c.frames_added
    if ¬ c.data.length = expected_length then none
    else
      match c.replay_meta with
      | none => some (.error .CouldNotBuildReplayMeta)
      | some meta => some (.ok (meta, (c.frames_added, features_per_row), c.data))

/-!  Concrete instances used by witnesses and counterexamples. -/

/-- A processor with no state at all. -/
def emptyProcessor : ReplayProcessor :=
  { actor_state := ActorStateModeler.new
    name_to_object_id := []
    ball_actor_id := none
    team_zero := []
    team_one := []
    player_to_actor_id := []
    player_to_car := []
    player_to_team := []
    car_to_boost := []
    car_to_jump := []
    car_to_double_jump := []
    car_to_dodge := []
    demolishes := []
    known_demolishes := [] }

/-- A trivial choice of the abstracted `glam` operations. -/
def glamOpsTrivial : GlamOps :=
  { length := fun _ => 0
    normalize_or_zero := fun _ => Vec3.zero
    from_axis_angle := fun _ _ => ⟨0, 0, 0, 1⟩
    slerp := fun a _ _ => a }

/-!  Component-wise lemmas for the vector algebra. -/

theorem Vec3.add_components (a b : Vec3) :
    a + b = ⟨a.x + b.x, a.y + b.y, a.z + b.z⟩ := rfl

theorem Vec3.sub_components (a b : Vec3) :
    a - b = ⟨a.x - b.x, a.y - b.y, a.z - b.z⟩ := rfl

theorem Vec3.smul_components (c : ℚ) (v : Vec3) :
    c • v = ⟨c * v.x, c * v.y, c * v.z⟩ := rfl

theorem Vec3.add_zero_smul (a : Vec3) (v : Vec3) : a + (0 : ℚ) • v = a := by
  cases a; cases v
  simp [Vec3.smul_components, Vec3.add_components]

/-!  Claim C5. -/

/-- C5: `get_interpolated_rigid_body(start, t_a, end, t_b, t)` fails with
`InterpolationTimeOrderError` exactly when the precondition
`t_a ≤ t ≤ t_b` does not hold; whenever it succeeds, the returned rigid
body's linear velocity, angular velocity and sleeping flag are exactly those
of the start body, and its location is the component-wise linear
interpolation of the two locations at parameter `(t − t_a)/(t_b − t_a)`. -/
theorem c5_interpolation_spec (ops : GlamOps) (start_body end_body : RigidBody)
    (start_time end_time time : ℚ) :
    (get_interpolated_rigid_body ops start_body start_time end_body end_time time =
        .error (.InterpolationTimeOrderError start_time time end_time) ↔
      ¬ (start_time ≤ time ∧ time ≤ end_time)) ∧
    (∀ rb,
      get_interpolated_rigid_body ops start_body start_time end_body end_time time =
          .ok rb →
        rb.linear_velocity = start_body.linear_velocity ∧
        rb.angular_velocity = start_body.angular_velocity ∧
        rb.sleeping = start_body.sleeping ∧
        rb.location = Vec3.lerp start_body.location end_body.location
          ((time - start_time) / (end_time - start_time))) := by
  unfold get_interpolated_rigid_body
  by_cases h : start_time ≤ time ∧ time ≤ end_time
  · rw [if_neg (not_not_intro h)]
    constructor
    · simp [h]
    · intro rb hrb
      cases hrb
      exact ⟨rfl, rfl, rfl, rfl⟩
  · rw [if_pos h]
    exact ⟨by simp [h], fun rb hrb => by cases hrb⟩

/-- Start body used in the interpolation witness. -/
def c5StartBody : RigidBody :=
  { sleeping := false
    location := ⟨0, 0, 0⟩
    rotation := ⟨0, 0, 0, 1⟩
    linear_velocity := some ⟨1, 2, 3⟩
    angular_velocity := none }

/-- End body used in the interpolation witness. -/
def c5EndBody : RigidBody :=
  { sleeping := true
    location := ⟨10, 0, 0⟩
    rotation := ⟨0, 0, 0, 1⟩
    linear_velocity := none
    angular_velocity := some ⟨4, 5, 6⟩ }

theorem c5_interpolation_spec_witness :
    ∃ rb, get_interpolated_rigid_body glamOpsTrivial c5StartBody 0 c5EndBody 1 (1/4) =
        .ok rb ∧
      rb.linear_velocity = c5StartBody.linear_velocity ∧
      rb.angular_velocity = c5StartBody.angular_velocity ∧
      rb.sleeping = c5StartBody.sleeping ∧
      rb.location = Vec3.lerp c5StartBody.location c5EndBody.location
        ((1/4 - 0) / (1 - 0)) := by
  have h : ∃ rb,
      get_interpolated_rigid_body glamOpsTrivial c5StartBody 0 c5EndBody 1 (1/4) =
        .ok rb := by
    unfold get_interpolated_rigid_body
    rw [if_neg (by norm_num)]
    exact ⟨_, rfl⟩
  obtain ⟨rb, hrb⟩ := h
  exact ⟨rb, hrb,
    (c5_interpolation_spec glamOpsTrivial c5StartBody c5EndBody 0 1 (1/4)).2 rb hrb⟩

/-!  Claim C6. -/

/-- C6: for every rigid body `rb`, `apply_velocities_to_rigid_body(rb, 0)`
returns `rb` unchanged, and for every `Δt` the result's location equals
`rb.location + Δt × rb.linear_velocity` (an absent linear velocity treated
as zero) while the linear and angular velocity fields of the result equal
those of `rb`. -/
theorem c6_apply_velocities (ops : GlamOps) (rb : RigidBody) (dt : ℚ) :
    apply_velocities_to_rigid_body ops rb 0 = rb ∧
    (apply_velocities_to_rigid_body ops rb dt).location =
      rb.location + dt • (rb.linear_velocity.getD Vec3.zero) ∧
    (apply_velocities_to_rigid_body ops rb dt).linear_velocity = rb.linear_velocity ∧
    (apply_velocities_to_rigid_body ops rb dt).angular_velocity = rb.angular_velocity := by
  unfold apply_velocities_to_rigid_body
  refine ⟨by simp, ?_, ?_, ?_⟩ <;> by_cases h : dt = 0 <;> simp [h]
  exact (Vec3.add_zero_smul _ _).symm

/-!  Claim C7. -/

/-- C7: `ActorStateModeler::process_frame` applies a frame's deletions first,
then creations, then attribute updates; consequently, for any frame that
deletes and re-creates the same `ActorId` with an identical `object_id`,
processing succeeds and leaves that actor with a fresh, empty attribute map;
a second `NewActor` for an already-live `ActorId` with matching `object_id`
is a no-op; and a `NewActor` whose `object_id` differs from the live actor's
`object_id` fails with `ActorIdAlreadyExists`. -/
theorem c7_actor_lifecycle (m : ActorStateModeler) (a : ActorId) (st : ActorState)
    (na : NewActor) (frame : Frame) (i : ℕ)
    (hlive : alLookup m.actor_states a = some st)
    (hdel : frame.deleted_actors = [a]) (hnew : frame.new_actors = [na])
    (hupd : frame.updated_actors = ([] : List UpdatedAttribute))
    (hid : na.actor_id = a) :
    (∀ (m₀ : ActorStateModeler) (f : Frame) (j : ℕ),
        m₀.process_frame f j = do
          let m₁ ← f.deleted_actors.foldlM (fun acc n => (acc.delete_actor n).map (·.1)) m₀
          let m₂ ← f.new_actors.foldlM (fun acc n => acc.new_actor n) m₁
          f.updated_actors.foldlM (fun acc u => acc.update_attribute u j) m₂) ∧
    (na.object_id = st.object_id →
       ∃ m', m.process_frame frame i = .ok m' ∧
         alLookup m'.actor_states a = some (ActorState.new na) ∧
         (ActorState.new na).attributes = ([] : AList ObjectId (Attr × ℕ))) ∧
    (na.object_id = st.object_id → m.new_actor na = .ok m) ∧
    (¬ na.object_id = st.object_id →
       m.new_actor na = .error (.ActorIdAlreadyExists na.actor_id na.object_id)) := by
  have hdelete :
      m.delete_actor a =
        .ok ({ actor_states := alRemove m.actor_states a
               actor_ids_by_type :=
                 alInsert m.actor_ids_by_type st.object_id
                   (((alLookup m.actor_ids_by_type st.object_id).getD []).filter
                     (fun x => ¬ x = a)) }, st) := by
    unfold ActorStateModeler.delete_actor
    rw [hlive]
  refine ⟨fun m₀ f j => rfl, ?_, ?_, ?_⟩
  · intro hobj
    have hgone :
        alLookup (alRemove m.actor_states a) na.actor_id = none := by
      rw [hid, alLookup_alRemove, if_pos rfl]
    unfold ActorStateModeler.process_frame
    rw [hdel, hnew, hupd]
    unfold ActorStateModeler.new_actor
    simp only [List.foldlM, bind, Except.bind, Except.map, hdelete, pure, Except.pure]
    rw [hgone]
    refine ⟨_, rfl, ?_, rfl⟩
    rw [hid, alLookup_alInsert, if_pos rfl]
  · intro hobj
    unfold ActorStateModeler.new_actor
    rw [hid, hlive]
    simp [hobj]
  · intro hobj
    unfold ActorStateModeler.new_actor
    rw [hid, hlive]
    have : ¬ st.object_id = na.object_id := fun h => hobj h.symm
    simp [this, hid]

/-- The modeler used by the C7 witness: one live actor `5` of object id `7`
with a non-empty attribute map. -/
def c7Modeler : ActorStateModeler :=
  { actor_states :=
      [(5, { attributes := [(3, (Attr.byte 9, 0))]
             derived_attributes := []
             object_id := 7
             name_id := none })]
    actor_ids_by_type := [(7, [5])] }

/-- The creation record used by the C7 witness. -/
def c7NewActor : NewActor := { actor_id := 5, name_id := none, object_id := 7 }

/-- The delete-and-recreate frame used by the C7 witness. -/
def c7Frame : Frame :=
  { time := 0, delta := 0, new_actors := [c7NewActor], deleted_actors := [5]
    updated_actors := [] }

theorem c7_actor_lifecycle_witness :
    (∃ m', c7Modeler.process_frame c7Frame 3 = .ok m' ∧
       alLookup m'.actor_states 5 = some (ActorState.new c7NewActor) ∧
       (ActorState.new c7NewActor).attributes = ([] : AList ObjectId (Attr × ℕ))) ∧
    c7Modeler.new_actor c7NewActor = .ok c7Modeler := by
  have h := c7_actor_lifecycle c7Modeler 5
    { attributes := [(3, (Attr.byte 9, 0))], derived_attributes := []
      object_id := 7, name_id := none }
    c7NewActor c7Frame 3 rfl rfl rfl rfl rfl
  exact ⟨h.2.1 rfl, h.2.2.1 rfl⟩

/-!  Claim C10. -/

/-- C10: for every `player_id` for which the player-to-car lookup fails, the
public query `get_interpolated_player_rigid_body` panics (it unwraps the
result of `get_car_actor_id`, modelled as `none`) instead of returning the
`ActorNotFound` error that the sibling query `get_player_rigid_body`
returns for the same state. -/
theorem c10_interpolated_player_rb_panics (p : ReplayProcessor) (ops : GlamOps)
    (replay : Replay) (player_id : PlayerId) (time close_enough : ℚ) (e : Error)
    (h : p.get_car_actor_id player_id = .error e) :
    p.get_interpolated_player_rigid_body ops replay player_id time close_enough = none ∧
    p.get_player_rigid_body player_id = .error e ∧
    (e = .ActorNotFound "ActorId" player_id ∨ e = .ActorNotFound "Car" player_id) := by
  refine ⟨?_, ?_, ?_⟩
  · unfold ReplayProcessor.get_interpolated_player_rigid_body
    rw [h]
  · unfold ReplayProcessor.get_player_rigid_body
    rw [h]
    rfl
  · unfold ReplayProcessor.get_car_actor_id ReplayProcessor.get_player_actor_id at h
    rcases h1 : alLookup p.player_to_actor_id player_id with _ | actor_id
    · rw [h1] at h
      simp only [bind, Except.bind] at h
      cases h
      exact Or.inl rfl
    · rw [h1] at h
      simp only [bind, Except.bind] at h
      rcases h2 : alLookup p.player_to_car actor_id with _ | car_id
      · rw [h2] at h
        cases h
        exact Or.inr rfl
      · rw [h2] at h
        cases h

theorem c10_interpolated_player_rb_panics_witness :
    emptyProcessor.get_interpolated_player_rigid_body glamOpsTrivial ⟨[], some []⟩ 0 0 0 =
        none ∧
    emptyProcessor.get_player_rigid_body 0 = .error (.ActorNotFound "ActorId" 0) := by
  have h := c10_interpolated_player_rb_panics emptyProcessor glamOpsTrivial ⟨[], some []⟩
    0 0 0 (.ActorNotFound "ActorId" 0) rfl
  exact ⟨h.1, h.2.1⟩

/-!  Claim C4. -/

/-- The boost update as the specification words it (claim C4 and spec §4.3):
the wire amount is read from the `ReplicatedBoost` attribute when present,
otherwise from the legacy `ReplicatedBoostAmount` byte, otherwise `0`; if
the wire amount differs from the stored `BoostAmount.Last` shadow (which
defaults to the wire amount when absent) the running value is reset to the
wire amount as a Float, otherwise the previous derived Float is carried
forward; if the component-active byte has low bit `1`,
`delta × (80.0/0.93)` is subtracted; and the result is clamped below at
`0`.  Stated as a second definition, to be compared with the
source-derived `boost_frame_value`. -/
def boost_update_spec (p : ReplayProcessor) (actor_state : ActorState) (delta : ℚ) :
    ℚ × ℕ :=
  let wire_amount : ℕ :=
    match p.get_attribute actor_state.attributes BOOST_REPLICATED_KEY with
    | .ok (.replicatedBoost b) => b
    | _ =>
      match (p.get_attribute actor_state.attributes BOOST_AMOUNT_KEY).bind Attr.asByte with
      | .ok b => b
      | .error _ => 0
  let last_wire : ℕ :=
    match alLookup actor_state.derived_attributes LAST_BOOST_AMOUNT_KEY with
    | some (Attr.byte b, _) => b
    | some _ => 0
    | none => wire_amount
  let previous_derived : ℚ :=
    match alLookup actor_state.derived_attributes BOOST_AMOUNT_KEY with
    | some (Attr.float v, _) => v
    | _ => 0
  let active_byte : ℕ :=
    match (p.get_attribute actor_state.attributes COMPONENT_ACTIVE_KEY).bind Attr.asByte with
    | .ok b => b
    | .error _ => 0
  let current : ℚ :=
    if wire_amount ≠ last_wire then (wire_amount : ℚ) else previous_derived
  let current :=
    if active_byte % 2 = 1 then current - delta * (80 / (93 / 100)) else current
  (max current 0, wire_amount)

/-- C4: for every processor, boost-component actor state and frame delta,
the per-actor computation of `update_boost_amounts` (the source-derived
`boost_frame_value`, built on `get_current_boost_values`) produces exactly
the new derived boost Float and `Last` shadow byte that the specification's
step-by-step description (`boost_update_spec`) prescribes. -/
theorem c4_boost_update_matches_spec (p : ReplayProcessor) (actor_state : ActorState)
    (delta : ℚ) :
    boost_frame_value p actor_state delta = boost_update_spec p actor_state delta := by
  unfold boost_frame_value ReplayProcessor.get_current_boost_values boost_update_spec
  simp only [BOOST_USED_PER_SECOND]
  generalize p.get_attribute actor_state.attributes BOOST_REPLICATED_KEY = R
  generalize (p.get_attribute actor_state.attributes BOOST_AMOUNT_KEY).bind Attr.asByte = L
  generalize
    (p.get_attribute actor_state.attributes COMPONENT_ACTIVE_KEY).bind Attr.asByte = A
  generalize alLookup actor_state.derived_attributes BOOST_AMOUNT_KEY = D
  generalize alLookup actor_state.derived_attributes LAST_BOOST_AMOUNT_KEY = S
  rcases S with _ | ⟨la, li⟩
  · simp [beq_iff_eq, ne_eq, ite_not]
  · cases la <;> simp [beq_iff_eq, ne_eq, ite_not]

/-!  Claim C2: invariant infrastructure. -/

/-- Every derived `BoostAmount` Float in an actor-state map is non-negative. -/
def StatesBoostNonneg (states : AList ActorId ActorState) : Prop :=
  ∀ a st v j, alLookup states a = some st →
    alLookup st.derived_attributes BOOST_AMOUNT_KEY = some (Attr.float v, j) → 0 ≤ v

/-- Every derived `BoostAmount` Float in the processor is non-negative. -/
def BoostNonneg (p : ReplayProcessor) : Prop :=
  StatesBoostNonneg p.actor_state.actor_states

/-- Inversion of a successful `Except` bind. -/
theorem bind_ok_inv {α β : Type} (x : Except Error α) (f : α → Except Error β) (b : β)
    (h : x >>= f = .ok b) : ∃ a, x = .ok a ∧ f a = .ok b := by
  cases x with
  | error e => cases h
  | ok a => exact ⟨a, rfl, h⟩

/-- Inversion of a successful `Except` map. -/
theorem map_ok_inv {α β : Type} (x : Except Error α) (g : α → β) (b : β)
    (h : x.map g = .ok b) : ∃ a, x = .ok a ∧ g a = b := by
  cases x with
  | error e => cases h
  | ok a =>
    refine ⟨a, rfl, ?_⟩
    have : (Except.ok (g a) : Except Error β) = .ok b := h
    injection this

/-- Generic preservation along a fallible left fold. -/
theorem foldlM_preserve {α β : Type} (P : β → Prop) (f : β → α → Except Error β)
    (hstep : ∀ b a b', P b → f b a = .ok b' → P b') :
    ∀ (l : List α) (b b' : β), P b → l.foldlM f b = .ok b' → P b' := by
  intro l
  induction l with
  | nil =>
    intro b b' hb h
    cases h
    exact hb
  | cons a rest ih =>
    intro b b' hb h
    have h' : f b a >>= (fun b₁ => rest.foldlM f b₁) = .ok b' := h
    obtain ⟨b₁, hf, hrest⟩ := bind_ok_inv _ _ _ h'
    exact ih b₁ b' (hstep b a b₁ hb hf) hrest

theorem delete_actor_boost_nonneg (m : ActorStateModeler) (a : ActorId)
    (m' : ActorStateModeler) (st : ActorState)
    (hInv : StatesBoostNonneg m.actor_states) (h : m.delete_actor a = .ok (m', st)) :
    StatesBoostNonneg m'.actor_states := by
  unfold ActorStateModeler.delete_actor at h
  rcases hl : alLookup m.actor_states a with _ | st₀ <;> rw [hl] at h
  · cases h
  · cases h
    intro b stb v j hb hd
    rw [alLookup_alRemove] at hb
    split at hb
    · cases hb
    · exact hInv b stb v j hb hd

theorem new_actor_boost_nonneg (m : ActorStateModeler) (na : NewActor)
    (m' : ActorStateModeler)
    (hInv : StatesBoostNonneg m.actor_states) (h : m.new_actor na = .ok m') :
    StatesBoostNonneg m'.actor_states := by
  unfold ActorStateModeler.new_actor at h
  cases hl : alLookup m.actor_states na.actor_id with
  | none =>
    rw [hl] at h
    cases h
    intro b stb v j hb hd
    rw [alLookup_alInsert] at hb
    split at hb
    · cases hb
      simp [ActorState.new, alLookup] at hd
    · exact hInv b stb v j hb hd
  | some st₀ =>
    rw [hl] at h
    dsimp only [] at h
    by_cases hobj : ¬ st₀.object_id = na.object_id
    · rw [if_pos hobj] at h
      cases h
    · rw [if_neg hobj] at h
      cases h
      exact hInv

theorem update_attribute_boost_nonneg (m : ActorStateModeler) (u : UpdatedAttribute)
    (i : ℕ) (m' : ActorStateModeler)
    (hInv : StatesBoostNonneg m.actor_states) (h : m.update_attribute u i = .ok m') :
    StatesBoostNonneg m'.actor_states := by
  unfold ActorStateModeler.update_attribute at h
  rcases hl : alLookup m.actor_states u.actor_id with _ | st₀ <;> rw [hl] at h
  · cases h
  · cases h
    intro b stb v j hb hd
    rw [alLookup_alInsert] at hb
    split at hb
    · cases hb
      exact hInv u.actor_id st₀ v j hl hd
    · exact hInv b stb v j hb hd

theorem modeler_process_frame_boost_nonneg (m : ActorStateModeler) (frame : Frame)
    (i : ℕ) (m' : ActorStateModeler)
    (hInv : StatesBoostNonneg m.actor_states) (h : m.process_frame frame i = .ok m') :
    StatesBoostNonneg m'.actor_states := by
  unfold ActorStateModeler.process_frame at h
  obtain ⟨m₁, h1, h⟩ := bind_ok_inv _ _ _ h
  obtain ⟨m₂, h2, h3⟩ := bind_ok_inv _ _ _ h
  have hm₁ : StatesBoostNonneg m₁.actor_states := by
    refine foldlM_preserve (fun mm => StatesBoostNonneg mm.actor_states) _
      ?_ _ m m₁ hInv h1
    intro b a b' hb hf
    obtain ⟨pr, hd, hfst⟩ := map_ok_inv _ _ _ hf
    subst hfst
    exact delete_actor_boost_nonneg b a pr.1 pr.2 hb (by rw [hd])
  have hm₂ : StatesBoostNonneg m₂.actor_states := by
    refine foldlM_preserve (fun mm => StatesBoostNonneg mm.actor_states) _
      ?_ _ m₁ m₂ hm₁ h2
    intro b a b' hb hf
    exact new_actor_boost_nonneg b a b' hb hf
  refine foldlM_preserve (fun mm => StatesBoostNonneg mm.actor_states) _
    ?_ _ m₂ m' hm₂ h3
  intro b a b' hb hf
  exact update_attribute_boost_nonneg b a i b' hb hf

/-- `update_mappings_one` touches only the relationship index maps. -/
theorem update_mappings_one_fields (p p' : ReplayProcessor) (u : UpdatedAttribute)
    (h : p.update_mappings_one u = .ok p') :
    p'.actor_state = p.actor_state ∧ p'.known_demolishes = p.known_demolishes ∧
    p'.demolishes = p.demolishes ∧ p'.ball_actor_id = p.ball_actor_id ∧
    p'.team_zero = p.team_zero ∧ p'.team_one = p.team_one ∧
    p'.name_to_object_id = p.name_to_object_id := by
  unfold ReplayProcessor.update_mappings_one at h
  obtain ⟨m1, _, h⟩ := bind_ok_inv _ _ _ h
  obtain ⟨m2, _, h⟩ := bind_ok_inv _ _ _ h
  obtain ⟨m3, _, h⟩ := bind_ok_inv _ _ _ h
  obtain ⟨m4, _, h⟩ := bind_ok_inv _ _ _ h
  obtain ⟨m5, _, h⟩ := bind_ok_inv _ _ _ h
  obtain ⟨m6, _, h⟩ := bind_ok_inv _ _ _ h
  obtain ⟨m7, _, h⟩ := bind_ok_inv _ _ _ h
  cases h
  exact ⟨rfl, rfl, rfl, rfl, rfl, rfl, rfl⟩

/-- `update_mappings` touches only the relationship index maps. -/
theorem update_mappings_fields (p p' : ReplayProcessor) (frame : Frame)
    (h : p.update_mappings frame = .ok p') :
    p'.actor_state = p.actor_state ∧ p'.known_demolishes = p.known_demolishes ∧
    p'.demolishes = p.demolishes ∧ p'.ball_actor_id = p.ball_actor_id ∧
    p'.team_zero = p.team_zero ∧ p'.team_one = p.team_one ∧
    p'.name_to_object_id = p.name_to_object_id := by
  unfold ReplayProcessor.update_mappings at h
  obtain ⟨p₁, h1, h⟩ := bind_ok_inv _ _ _ h
  cases h
  exact foldlM_preserve
      (fun q => q.actor_state = p.actor_state ∧ q.known_demolishes = p.known_demolishes ∧
        q.demolishes = p.demolishes ∧ q.ball_actor_id = p.ball_actor_id ∧
        q.team_zero = p.team_zero ∧ q.team_one = p.team_one ∧
        q.name_to_object_id = p.name_to_object_id)
      ReplayProcessor.update_mappings_one
      (fun b a b' hb hf => by
        obtain ⟨f1, f2, f3, f4, f5, f6, f7⟩ := update_mappings_one_fields b b' a hf
        exact ⟨f1.trans hb.1, f2.trans hb.2.1, f3.trans hb.2.2.1, f4.trans hb.2.2.2.1,
          f5.trans hb.2.2.2.2.1, f6.trans hb.2.2.2.2.2.1, f7.trans hb.2.2.2.2.2.2⟩)
      frame.updated_actors p p₁
      ⟨rfl, rfl, rfl, rfl, rfl, rfl, rfl⟩ h1

/-- `update_ball_id` touches only `ball_actor_id`. -/
theorem update_ball_id_fields (p p' : ReplayProcessor) (frame : Frame)
    (h : p.update_ball_id frame = .ok p') :
    p'.actor_state = p.actor_state ∧ p'.known_demolishes = p.known_demolishes ∧
    p'.demolishes = p.demolishes ∧ p'.team_zero = p.team_zero ∧
    p'.team_one = p.team_one ∧ p'.name_to_object_id = p.name_to_object_id := by
  unfold ReplayProcessor.update_ball_id at h
  split at h
  · split at h <;> (cases h; exact ⟨rfl, rfl, rfl, rfl, rfl, rfl⟩)
  · split at h
    · split at h <;> (cases h; exact ⟨rfl, rfl, rfl, rfl, rfl, rfl⟩)
    · cases h
      exact ⟨rfl, rfl, rfl, rfl, rfl, rfl⟩

/-- A single boost write-back preserves non-negativity when the written
Float is non-negative. -/
theorem writeBoostDerived_nonneg (states : AList ActorId ActorState)
    (upd : ActorId × ℚ × ℕ) (i : ℕ)
    (hInv : StatesBoostNonneg states) (hv : 0 ≤ upd.2.1) :
    StatesBoostNonneg (writeBoostDerived states upd i) := by
  unfold writeBoostDerived
  rcases hl : alLookup states upd.1 with _ | st₀
  · exact hInv
  · intro b stb v j hb hd
    rw [alLookup_alInsert] at hb
    split at hb
    · cases hb
      rw [alLookup_alInsert] at hd
      rw [if_pos rfl] at hd
      cases hd
      exact hv
    · exact hInv b stb v j hb hd

/-- The boost write-back fold preserves non-negativity when every written
Float is non-negative. -/
theorem writeBoostDerived_fold_nonneg (i : ℕ) :
    ∀ (updates : List (ActorId × ℚ × ℕ)) (states : AList ActorId ActorState),
      StatesBoostNonneg states → (∀ u ∈ updates, 0 ≤ u.2.1) →
      StatesBoostNonneg
        (updates.foldl (fun s u => writeBoostDerived s u i) states) := by
  intro updates
  induction updates with
  | nil => intro states hInv _; exact hInv
  | cons u rest ih =>
    intro states hInv hall
    simp only [List.foldl]
    exact ih (writeBoostDerived states u i)
      (writeBoostDerived_nonneg states u i hInv (hall u (by simp)))
      (fun u' hu' => hall u' (by simp [hu']))

/-- `update_boost_amounts` establishes non-negativity of everything it
writes and preserves it elsewhere. -/
theorem update_boost_amounts_nonneg (p p' : ReplayProcessor) (frame : Frame) (i : ℕ)
    (hInv : BoostNonneg p) (h : p.update_boost_amounts frame i = .ok p') :
    BoostNonneg p' := by
  unfold ReplayProcessor.update_boost_amounts at h
  obtain ⟨actors, h1, h⟩ := bind_ok_inv _ _ _ h
  cases h
  · refine writeBoostDerived_fold_nonneg i _ _ hInv ?_
    intro u hu
    simp only [List.mem_map] at hu
    obtain ⟨a, _, ha⟩ := hu
    have : u.2.1 = (boost_frame_value p a.2 frame.delta).1 := by
      rw [← ha]
    rw [this]
    unfold boost_frame_value
    exact le_max_right _ _

/-- One demolish-recording step touches only the demolish logs. -/
theorem demolish_record_step_fields (frame : Frame) (i : ℕ) (acc : ReplayProcessor)
    (d : DemolishFx) :
    (demolish_record_step frame i acc d).actor_state = acc.actor_state ∧
    (demolish_record_step frame i acc d).team_zero = acc.team_zero ∧
    (demolish_record_step frame i acc d).team_one = acc.team_one ∧
    (demolish_record_step frame i acc d).ball_actor_id = acc.ball_actor_id ∧
    (demolish_record_step frame i acc d).name_to_object_id = acc.name_to_object_id ∧
    (demolish_record_step frame i acc d).known_demolishes =
      acc.known_demolishes ++ [(d, i)] := by
  unfold demolish_record_step
  rcases hb : acc.build_demolish_info d frame i with e | info <;>
    simp [hb]

/-- The demolish-recording fold touches only the demolish logs. -/
theorem demolish_foldl_fields (frame : Frame) (i : ℕ) :
    ∀ (l : List DemolishFx) (p : ReplayProcessor),
      (l.foldl (demolish_record_step frame i) p).actor_state = p.actor_state ∧
      (l.foldl (demolish_record_step frame i) p).team_zero = p.team_zero ∧
      (l.foldl (demolish_record_step frame i) p).team_one = p.team_one ∧
      (l.foldl (demolish_record_step frame i) p).ball_actor_id = p.ball_actor_id ∧
      (l.foldl (demolish_record_step frame i) p).name_to_object_id =
        p.name_to_object_id := by
  intro l
  induction l with
  | nil => intro p; exact ⟨rfl, rfl, rfl, rfl, rfl⟩
  | cons d rest ih =>
    intro p
    simp only [List.foldl]
    obtain ⟨i1, i2, i3, i4, i5⟩ := ih (demolish_record_step frame i p d)
    obtain ⟨s1, s2, s3, s4, s5, _⟩ := demolish_record_step_fields frame i p d
    exact ⟨i1.trans s1, i2.trans s2, i3.trans s3, i4.trans s4, i5.trans s5⟩

/-- The demolish-recording fold appends exactly the new effects, each at the
current frame index. -/
theorem demolish_foldl_known (frame : Frame) (i : ℕ) :
    ∀ (l : List DemolishFx) (p : ReplayProcessor),
      (l.foldl (demolish_record_step frame i) p).known_demolishes =
        p.known_demolishes ++ l.map (fun d => (d, i)) := by
  intro l
  induction l with
  | nil => intro p; simp
  | cons d rest ih =>
    intro p
    simp only [List.foldl, List.map]
    rw [ih (demolish_record_step frame i p d),
      (demolish_record_step_fields frame i p d).2.2.2.2.2]
    simp

/-- `update_demolishes` touches only the demolish logs. -/
theorem update_demolishes_fields (p p' : ReplayProcessor) (frame : Frame) (i : ℕ)
    (h : p.update_demolishes frame i = .ok p') :
    p'.actor_state = p.actor_state ∧ p'.team_zero = p.team_zero ∧
    p'.team_one = p.team_one ∧ p'.ball_actor_id = p.ball_actor_id ∧
    p'.name_to_object_id = p.name_to_object_id := by
  unfold ReplayProcessor.update_demolishes at h
  obtain ⟨active, h1, h⟩ := bind_ok_inv _ _ _ h
  cases h
  exact demolish_foldl_fields frame i _ p

/-- C2 (amended): the per-frame state update preserves the property that
every Float stored in a `derived_attributes` map under the `BoostAmount`
key is non-negative: the update clamps below at `0`, and no other per-frame
operation writes that key.  Consequently `0.0 ≤ v` holds at every frame
during processing; the upper bound `100.0` of the original claim is not
maintained (see the counterexample). -/
theorem c2_boost_amount_nonneg (p p' : ReplayProcessor) (frame : Frame) (i : ℕ)
    (hInv : BoostNonneg p) (h : p.process_frame_updates frame i = .ok p') :
    BoostNonneg p' := by
  unfold ReplayProcessor.process_frame_updates at h
  obtain ⟨m, h1, h⟩ := bind_ok_inv _ _ _ h
  obtain ⟨p₂, h2, h⟩ := bind_ok_inv _ _ _ h
  obtain ⟨p₃, h3, h⟩ := bind_ok_inv _ _ _ h
  obtain ⟨p₄, h4, h5⟩ := bind_ok_inv _ _ _ h
  have hm : StatesBoostNonneg m.actor_states :=
    modeler_process_frame_boost_nonneg _ frame i _ hInv h1
  have hp₂ : BoostNonneg p₂ := by
    unfold BoostNonneg
    rw [(update_mappings_fields _ _ _ h2).1]
    exact hm
  have hp₃ : BoostNonneg p₃ := by
    unfold BoostNonneg
    rw [(update_ball_id_fields _ _ _ h3).1]
    exact hp₂
  have hp₄ : BoostNonneg p₄ := update_boost_amounts_nonneg _ _ _ _ hp₃ h4
  unfold BoostNonneg
  rw [(update_demolishes_fields _ _ _ _ h5).1]
  exact hp₄

/-- The boost actor state of the C2 counterexample: a freshly delivered wire
reading of `255` (the maximum of the byte) differing from the stored `Last`
shadow of `0`. -/
def c2BoostState : ActorState :=
  { attributes := [(1, (Attr.replicatedBoost 255, 0))]
    derived_attributes := [(LAST_BOOST_AMOUNT_KEY, (Attr.byte 0, 0))]
    object_id := 0
    name_id := none }

/-- The processor of the C2 counterexample: a single boost actor. -/
def c2Processor : ReplayProcessor :=
  { emptyProcessor with
    name_to_object_id := [(BOOST_TYPE, 0), (BOOST_REPLICATED_KEY, 1)]
    actor_state :=
      { actor_states := [(1, c2BoostState)], actor_ids_by_type := [(0, [1])] } }

/-- An empty frame. -/
def c2Frame : Frame :=
  { time := 0, delta := 0, new_actors := [], deleted_actors := [], updated_actors := [] }

/-- C2 counterexample: `update_boost_amounts` stores `255.0` under
`BoostAmount` — the claimed upper bound `100.0` is violated, because the
wire byte is stored as a Float without an upper clamp. -/
theorem c2_boost_above_100_counterexample :
    ∃ p', c2Processor.update_boost_amounts c2Frame 1 = .ok p' ∧
      ∃ st, alLookup p'.actor_state.actor_states 1 = some st ∧
        alLookup st.derived_attributes BOOST_AMOUNT_KEY =
          some (Attr.float ((255 : ℕ) : ℚ), 1) ∧
        ¬ (((255 : ℕ) : ℚ) ≤ 100) := by
  refine ⟨_, rfl, _, rfl, rfl, by norm_num⟩

/-- The processor of the C2 witness: no actors, but the archetype keys the
per-frame update resolves are present. -/
def c2WitnessProcessor : ReplayProcessor :=
  { emptyProcessor with name_to_object_id := [(BOOST_TYPE, 0), (CAR_TYPE, 1)] }

theorem c2_boost_amount_nonneg_witness :
    ∃ p', c2WitnessProcessor.process_frame_updates c2Frame 0 = .ok p' ∧
      BoostNonneg p' := by
  have hInv : BoostNonneg c2WitnessProcessor := by
    intro a st v j ha _
    cases ha
  exact ⟨_, rfl, c2_boost_amount_nonneg c2WitnessProcessor _ c2Frame 0 hInv rfl⟩

/-!  Claim C8. -/

/-- The dedup property exactly as claim C8 words it: no two entries of the
window hold an equal `DemolishFx` value at frame indices whose absolute
difference is less than 100. -/
def DemolishWindowOk (l : List (DemolishFx × ℕ)) : Prop :=
  l.Pairwise (fun e1 e2 => e1.1 = e2.1 →
    ¬ (max (e1.2 - e2.2) (e2.2 - e1.2) < MAX_DEMOLISH_KNOWN_FRAMES_PASSED))

/-- The amended dedup property: two entries with an equal value within 100
frames were necessarily recorded at the same frame index (duplicates
observed within a single frame are each recorded). -/
def DemolishWindowOkAmended (l : List (DemolishFx × ℕ)) : Prop :=
  l.Pairwise (fun e1 e2 => e1.1 = e2.1 →
    max (e1.2 - e2.2) (e2.2 - e1.2) < MAX_DEMOLISH_KNOWN_FRAMES_PASSED → e1.2 = e2.2)

/-- Unfolding of `demolish_is_known` into its defining existential. -/
theorem demolish_is_known_iff (p : ReplayProcessor) (d : DemolishFx) (i : ℕ) :
    p.demolish_is_known d i = true ↔
      ∃ e ∈ p.known_demolishes, e.1 = d ∧
        max (i - e.2) (e.2 - i) < MAX_DEMOLISH_KNOWN_FRAMES_PASSED := by
  unfold ReplayProcessor.demolish_is_known
  simp [List.any_eq_true, Bool.and_eq_true, beq_iff_eq, decide_eq_true_eq]

/-- The car state of the C8 counterexample, carrying a demolish effect. -/
def c8CarState : ActorState :=
  { attributes := [(1, (Attr.demolishFx ⟨10, 11, Vec3.zero, Vec3.zero⟩, 0))]
    derived_attributes := []
    object_id := 0
    name_id := none }

/-- The processor of the C8 counterexample: two car actors carrying an
identical demolish effect in the same frame, with an empty dedup window. -/
def c8Processor : ReplayProcessor :=
  { emptyProcessor with
    name_to_object_id := [(CAR_TYPE, 0), (DEMOLISH_GOAL_EXPLOSION_KEY, 1)]
    actor_state :=
      { actor_states := [(1, c8CarState), (2, c8CarState)]
        actor_ids_by_type := [(0, [1, 2])] } }

/-- An empty frame for the C8 theorems. -/
def c8Frame : Frame :=
  { time := 0, delta := 0, new_actors := [], deleted_actors := [], updated_actors := [] }

/-- C8 counterexample: the dedup check only consults the window as it stood
at the start of the frame, so an identical `DemolishFx` observed on two car
actors within one frame is recorded twice at the same index, violating the
claimed invariant (the two entries are equal and `|5 − 5| = 0 < 100`). -/
theorem c8_within_frame_duplicate_counterexample :
    ∃ p', c8Processor.update_demolishes c8Frame 5 = .ok p' ∧
      p'.known_demolishes =
        [(⟨10, 11, Vec3.zero, Vec3.zero⟩, 5), (⟨10, 11, Vec3.zero, Vec3.zero⟩, 5)] ∧
      ¬ DemolishWindowOk p'.known_demolishes := by
  refine ⟨_, rfl, rfl, ?_⟩
  intro hOk
  rcases List.pairwise_cons.mp hOk with ⟨hrel, _⟩
  have := hrel (⟨10, 11, Vec3.zero, Vec3.zero⟩, 5) (by simp)
  exact this rfl (by norm_num [MAX_DEMOLISH_KNOWN_FRAMES_PASSED])

/-- C8 (amended): `update_demolishes` records an observed `DemolishFx` only
when no entry with the same value within 100 frames existed at the start of
the frame, appends every recorded effect to the window with the current
frame index, and therefore preserves the property that two window entries
with an equal value within 100 frames share their frame index; entries
recorded at distinct frames never share a value within 100 frames. -/
theorem c8_demolish_dedup_amended (p p' : ReplayProcessor) (frame : Frame) (i : ℕ)
    (hInv : DemolishWindowOkAmended p.known_demolishes)
    (h : p.update_demolishes frame i = .ok p') :
    (∃ active, p.get_active_demolish_fx = .ok active ∧
      p'.known_demolishes = p.known_demolishes ++
        (active.filter (fun d => ¬ p.demolish_is_known d i)).map (fun d => (d, i))) ∧
    DemolishWindowOkAmended p'.known_demolishes := by
  unfold ReplayProcessor.update_demolishes at h
  obtain ⟨active, h1, h⟩ := bind_ok_inv _ _ _ h
  cases h
  refine ⟨⟨active, h1, demolish_foldl_known frame i _ p⟩, ?_⟩
  unfold DemolishWindowOkAmended
  rw [demolish_foldl_known frame i _ p, List.pairwise_append]
  refine ⟨hInv, ?_, ?_⟩
  · have hall : ∀ (l : List DemolishFx),
        (l.map (fun d => (d, i))).Pairwise
          (fun e1 e2 : DemolishFx × ℕ => e1.1 = e2.1 →
            max (e1.2 - e2.2) (e2.2 - e1.2) < MAX_DEMOLISH_KNOWN_FRAMES_PASSED →
              e1.2 = e2.2) := by
      intro l
      induction l with
      | nil => exact List.Pairwise.nil
      | cons d rest ih =>
        refine List.Pairwise.cons ?_ ih
        intro b hb
        obtain ⟨d', _, hd'⟩ := List.mem_map.mp hb
        intro _ _
        rw [← hd']
    exact hall _
  · intro a ha b hb
    obtain ⟨d, hdf, hdb⟩ := List.mem_map.mp hb
    intro hval hclose
    exfalso
    have hnk : ¬ p.demolish_is_known d i = true := by
      have := (List.mem_filter.mp hdf).2
      simpa using this
    apply hnk
    rw [demolish_is_known_iff]
    refine ⟨a, ha, ?_, ?_⟩
    · rw [hval, ← hdb]
    · rw [max_comm]
      have : b.2 = i := by rw [← hdb]
      rw [this] at hclose
      exact hclose

theorem c8_demolish_dedup_amended_witness :
    ∃ p', c8Processor.update_demolishes c8Frame 5 = .ok p' ∧
      DemolishWindowOkAmended p'.known_demolishes :=
  ⟨_, rfl, (c8_demolish_dedup_amended c8Processor _ c8Frame 5 List.Pairwise.nil rfl).2⟩

/-!  Claim C9. -/

theorem collectResults_ok_length {α β : Type} (f : α → Except Error β) :
    ∀ (l : List α) (l' : List β), collectResults f l = .ok l' → l'.length = l.length := by
  intro l
  induction l with
  | nil =>
    intro l' h
    cases h
    rfl
  | cons a rest ih =>
    intro l' h
    unfold collectResults at h
    obtain ⟨b, _, h⟩ := bind_ok_inv _ _ _ h
    obtain ⟨bs, hbs, h⟩ := bind_ok_inv _ _ _ h
    cases h
    simp [ih bs hbs]

/-- The captured metadata counts exactly the processor's rostered players. -/
theorem get_replay_meta_count (p : ReplayProcessor) (m : ReplayMeta)
    (h : p.get_replay_meta = .ok m) : m.player_count = p.player_count := by
  unfold ReplayProcessor.get_replay_meta at h
  obtain ⟨tz, h1, h⟩ := bind_ok_inv _ _ _ h
  obtain ⟨t1, h2, h⟩ := bind_ok_inv _ _ _ h
  cases h
  unfold ReplayMeta.player_count ReplayProcessor.player_count
    ReplayProcessor.iter_player_ids_in_order
  rw [collectResults_ok_length _ _ _ h1, collectResults_ok_length _ _ _ h2]
  simp only [List.length_append]
  omega

/-- Multiplying each summand by a constant scales the sum. -/
theorem sum_map_mul_const {α : Type} (l : List α) (f : α → ℕ) (k : ℕ) :
    (l.map (fun x => f x * k)).sum = k * (l.map f).sum := by
  induction l with
  | nil => simp
  | cons a rest ih =>
    simp only [List.map, List.sum_cons, ih]
    ring

theorem extendGlobalAdders_ok_length {F : Type} (p : ReplayProcessor) (frame : Frame)
    (n : ℕ) (t : ℚ) :
    ∀ (adders : List (FeatureAdder F)) (data d : List F),
      extendGlobalAdders adders p frame n t data = (d, none) →
      d.length = data.length + (adders.map (·.features_added)).sum := by
  intro adders
  induction adders with
  | nil =>
    intro data d h
    injection h with h1 _
    subst h1
    simp
  | cons fa rest ih =>
    intro data d h
    unfold extendGlobalAdders at h
    rcases hf : fa.get_features p frame n t with e | row <;> rw [hf] at h
    · dsimp only [] at h
      injection h with _ h2
      cases h2
    · dsimp only [] at h
      have := ih (data ++ row.1) d h
      simp only [List.length_append, row.2, List.map, List.sum_cons,
        FeatureAdder.features_added] at this ⊢
      omega

theorem extendPlayerAddersOne_ok_length {F : Type} (player_id : PlayerId)
    (p : ReplayProcessor) (frame : Frame) (n : ℕ) (t : ℚ) :
    ∀ (adders : List (PlayerFeatureAdder F)) (data d : List F),
      extendPlayerAddersOne adders player_id p frame n t data = (d, none) →
      d.length = data.length + (adders.map (·.features_added)).sum := by
  intro adders
  induction adders with
  | nil =>
    intro data d h
    injection h with h1 _
    subst h1
    simp
  | cons pfa rest ih =>
    intro data d h
    unfold extendPlayerAddersOne at h
    rcases hf : pfa.get_features player_id p frame n t with e | row <;> rw [hf] at h
    · dsimp only [] at h
      injection h with _ h2
      cases h2
    · dsimp only [] at h
      have := ih (data ++ row.1) d h
      simp only [List.length_append, row.2, List.map, List.sum_cons,
        PlayerFeatureAdder.features_added] at this ⊢
      omega

theorem extendPlayerAdders_ok_length {F : Type} (p : ReplayProcessor) (frame : Frame)
    (n : ℕ) (t : ℚ) (adders : List (PlayerFeatureAdder F)) :
    ∀ (players : List PlayerId) (data d : List F),
      extendPlayerAdders players adders p frame n t data = (d, none) →
      d.length = data.length +
        players.length * (adders.map (·.features_added)).sum := by
  intro players
  induction players with
  | nil =>
    intro data d h
    injection h with h1 _
    subst h1
    simp
  | cons player rest ih =>
    intro data d h
    unfold extendPlayerAdders at h
    rcases hone : extendPlayerAddersOne adders player p frame n t data with ⟨d₁, oe⟩
    rw [hone] at h
    cases oe with
    | some e =>
      dsimp only [] at h
      injection h with _ h2
      cases h2
    | none =>
      dsimp only [] at h
      have h1 := extendPlayerAddersOne_ok_length player p frame n t adders data d₁ hone
      have h2 := ih d₁ d h
      rw [h2, h1]
      simp only [List.length_cons, Nat.succ_mul]
      ring

/-- Expected width of one row for a given player count. -/
def NDRowWidth {F : Type} (c : NDArrayCollector F) (k : ℕ) : ℕ :=
  (c.feature_adders.map (·.features_added)).sum +
    k * (c.player_feature_adders.map (·.features_added)).sum

/-- The C9 shape invariant: the data vector always holds exactly
`frames_added` full rows, and any captured metadata counts the processor's
players. -/
def NDInv {F : Type} (c : NDArrayCollector F) (p : ReplayProcessor) : Prop :=
  c.data.length = c.frames_added * NDRowWidth c p.player_count ∧
  ∀ m, c.replay_meta = some m → m.player_count = p.player_count

/-- One collector invocation preserves the shape invariant: a skipped frame
changes nothing, and an emitted row appends exactly one full row of
`NDRowWidth` entries and counts one frame. -/
theorem ndarray_process_frame_inv {F : Type} (c c' : NDArrayCollector F)
    (p : ReplayProcessor) (frame : Frame) (n : ℕ) (t : ℚ) (ta : TimeAdvance)
    (hInv : NDInv c p) (h : c.process_frame p frame n t = (c', .ok ta)) :
    NDInv c' p := by
  unfold NDArrayCollector.process_frame at h
  have hmeta : ∃ m', ∃ hm : (match c.replay_meta with
      | some m => (.ok (some m) : Except Error (Option ReplayMeta))
      | none => (p.get_replay_meta).map some) = .ok (some m'),
      m'.player_count = p.player_count := by
    rcases hrm : c.replay_meta with _ | m
    · rcases hgm : p.get_replay_meta with e | m
      · exfalso
        rw [hrm, hgm] at h
        dsimp only [Except.map] at h
        injection h with _ h2
        cases h2
      · exact ⟨m, rfl, get_replay_meta_count p m hgm⟩
    · exact ⟨m, rfl, hInv.2 m hrm⟩
  obtain ⟨m', hm, hcount⟩ := hmeta
  rw [hm] at h
  dsimp only [] at h
  rcases hbe : p.ball_rigid_body_exists with e | b
  · exfalso
    rw [hbe] at h
    dsimp only [] at h
    injection h with _ h2
    cases h2
  · rw [hbe] at h
    dsimp only [] at h
    split at h
    · injection h with hc _
      subst hc
      exact ⟨hInv.1, fun m hm2 => by
        have : some m' = some m := hm2
        injection this with this
        subst this
        exact hcount⟩
    · rcases hg : extendGlobalAdders c.feature_adders p frame n t c.data with ⟨d, oe⟩
      rw [hg] at h
      cases oe with
      | some e =>
        dsimp only [] at h
        injection h with _ h2
        cases h2
      | none =>
        dsimp only [] at h
        rcases hp : extendPlayerAdders p.iter_player_ids_in_order
            c.player_feature_adders p frame n t d with ⟨d', oe'⟩
        rw [hp] at h
        cases oe' with
        | some e =>
          dsimp only [] at h
          injection h with _ h2
          cases h2
        | none =>
          dsimp only [] at h
          injection h with hc _
          subst hc
          constructor
          · have hlg := extendGlobalAdders_ok_length p frame n t c.feature_adders
              c.data d hg
            have hlp := extendPlayerAdders_ok_length p frame n t
              c.player_feature_adders p.iter_player_ids_in_order d d' hp
            have hroster : p.iter_player_ids_in_order.length = p.player_count := rfl
            dsimp only []
            rw [hlp, hlg, hroster, hInv.1]
            unfold NDRowWidth
            ring
          · intro m hm2
            have : some m' = some m := hm2
            injection this with this
            subst this
            exact hcount

/-- The terminal reshape: a successful `get_meta_and_ndarray` returns the
captured metadata and the data with shape
`(frames_added, Σ global widths + player_count × Σ player widths)`. -/
theorem ndarray_get_meta_shape {F : Type} (c : NDArrayCollector F) (meta : ReplayMeta)
    (shape : ℕ × ℕ) (out : List F)
    (h : c.get_meta_and_ndarray = some (.ok (meta, shape, out))) :
    c.replay_meta = some meta ∧
    shape = (c.frames_added,
      (c.feature_adders.map (·.features_added)).sum +
        meta.player_count * (c.player_feature_adders.map (·.features_added)).sum) ∧
    out.length = shape.1 * shape.2 := by
  unfold NDArrayCollector.get_meta_and_ndarray
    NDArrayCollector.try_get_frame_feature_count at h
  rcases hm : c.replay_meta with _ | m <;> rw [hm] at h
  · dsimp only [] at h
    cases h
  · dsimp only [] at h
    split at h
    · cases h
    · rename_i hlen
      have hlen' := not_not.mp hlen
      cases h
      refine ⟨by simp [hm], ?_, ?_⟩
      · rw [sum_map_mul_const]
      · rw [hlen']
        dsimp only []
        rw [sum_map_mul_const]
        ring

/-- C9: whenever `get_meta_and_ndarray` returns successfully, the length of
the accumulated data vector equals `frames_added × (Σ global widths +
player_count × Σ player widths)` and the returned 2-D array has exactly
that shape; equivalently, every invocation of
`NDArrayCollector::process_frame` that emits a row appends exactly one full
row of that width (the shape invariant `NDInv` is preserved). -/
theorem c9_ndarray_shape {F : Type} (c c' : NDArrayCollector F) (p : ReplayProcessor)
    (frame : Frame) (n : ℕ) (t : ℚ) (ta : TimeAdvance) (meta : ReplayMeta)
    (shape : ℕ × ℕ) (out : List F) :
    (NDInv c p → c.process_frame p frame n t = (c', .ok ta) → NDInv c' p) ∧
    (c.get_meta_and_ndarray = some (.ok (meta, shape, out)) →
      shape = (c.frames_added,
        (c.feature_adders.map (·.features_added)).sum +
          meta.player_count * (c.player_feature_adders.map (·.features_added)).sum) ∧
      out.length = c.frames_added * shape.2) := by
  constructor
  · exact fun hInv h => ndarray_process_frame_inv c c' p frame n t ta hInv h
  · intro h
    obtain ⟨h1, h2, h3⟩ := ndarray_get_meta_shape c meta shape out h
    refine ⟨h2, ?_⟩
    rw [h3, h2]

/-- The collector of the C9 witness: no adders, nothing collected yet. -/
def c9Collector : NDArrayCollector Unit := NDArrayCollector.new [] []

/-- An empty frame for the C9 witness. -/
def c9Frame : Frame :=
  { time := 0, delta := 0, new_actors := [], deleted_actors := [], updated_actors := [] }

/-- An empty metadata record. -/
def c9Meta : ReplayMeta := { team_zero := [], team_one := [] }

/-- The C9 witness collector after metadata capture. -/
def c9CollectorWithMeta : NDArrayCollector Unit :=
  { c9Collector with replay_meta := some c9Meta }

theorem c9_ndarray_shape_witness :
    ∃ c', c9Collector.process_frame emptyProcessor c9Frame 0 0 = (c', .ok .NextFrame) ∧
      NDInv c' emptyProcessor ∧
      c9CollectorWithMeta.get_meta_and_ndarray =
        some (.ok (c9Meta, ((0 : ℕ), (0 : ℕ)), ([] : List Unit))) ∧
      ((0 : ℕ), (0 : ℕ)) = (c9CollectorWithMeta.frames_added,
        (c9CollectorWithMeta.feature_adders.map (·.features_added)).sum +
          c9Meta.player_count *
            (c9CollectorWithMeta.player_feature_adders.map (·.features_added)).sum) := by
  have hInv : NDInv c9Collector emptyProcessor := ⟨rfl, fun m hm => by cases hm⟩
  refine ⟨_, rfl, ?_, rfl, ?_⟩
  · exact (c9_ndarray_shape c9Collector _ emptyProcessor c9Frame 0 0 .NextFrame c9Meta
      (0, 0) []).1 hInv rfl
  · exact ((c9_ndarray_shape c9CollectorWithMeta c9CollectorWithMeta emptyProcessor
      c9Frame 0 0 .NextFrame c9Meta (0, 0) []).2 rfl).1

/-!  Claim C1. -/

/-- The processor of the C1 theorem: the discovery roster holds player `7`,
but no player was observed (`player_to_actor_id` is empty). -/
def c1Processor : ReplayProcessor := { emptyProcessor with team_zero := [7] }

/-- A replay whose network frames are present but empty. -/
def c1Replay : Replay := { objects := [], network_frames := some [] }

/-- A collector that always advances to the next frame. -/
def c1Collector : Collector Unit := ⟨fun s _ _ _ _ => .ok (.NextFrame, s)⟩

/-- C1: the claim says `process` fails with `InconsistentPlayerSet` whenever
the players observed during processing differ from the discovery roster.
In the code the frame loop is followed by no check at all —
`check_player_id_set` exists but has no callers — so `process` succeeds on a
processor whose observed set (empty) differs from its roster (`[7]`), while
`check_player_id_set` on the very same state would report
`InconsistentPlayerSet`.  This contradicts both the claim and the
documentation comment on `process` itself. -/
theorem c1_process_skips_player_set_check :
    (∀ fuel : ℕ, c1Processor.process c1Replay c1Collector () fuel =
      some (.ok (c1Processor, ()))) ∧
    c1Processor.check_player_id_set =
      .error (.InconsistentPlayerSet [] [7]) := by
  constructor
  · intro fuel
    rfl
  · unfold ReplayProcessor.check_player_id_set
    rw [if_neg (by decide)]
    rfl

/-!  Claim C3. -/

/-- The processor of the C3 theorem: no actors, but the archetype keys the
per-frame update resolves are present. -/
def c3Processor : ReplayProcessor :=
  { emptyProcessor with name_to_object_id := [(BOOST_TYPE, 0), (CAR_TYPE, 1)] }

/-- An empty frame at time `0`. -/
def c3Frame : Frame :=
  { time := 0, delta := 0, new_actors := [], deleted_actors := [], updated_actors := [] }

/-- A replay with a single empty frame. -/
def c3Replay : Replay := { objects := [], network_frames := some [c3Frame] }

/-- An inner collector that always advances to the next frame. -/
def c3Inner : Collector Unit := ⟨fun s _ _ _ _ => .ok (.NextFrame, s)⟩

/-- C3: the claim says a `FrameRateDecorator` with `target_frame_duration ≤ 0`
invokes the inner collector exactly once per frame and processing still
terminates.  In the code the decorator then returns
`Time(current + target) ≤ current`, so the driver's
`while current_time <= frame.time` loop never advances past the first
frame: for every fuel bound the loop fails to terminate (`none`), and the
inner collector is re-invoked on the same frame each iteration. -/
theorem c3_framerate_nonpositive_diverges (target : ℚ) (htarget : target ≤ 0) :
    (∀ (σ : Type) (inner : Collector σ) (p : ReplayProcessor) (frame : Frame)
       (index fuel : ℕ) (current : ℚ) (ta : TimeAdvance) (s : σ),
       (∀ s' current', inner.process_frame s' p frame index current' =
         .ok (.NextFrame, s')) →
       current ≤ frame.time →
       collector_loop (FrameRateDecorator target inner) p frame index fuel current ta s =
         none) ∧
    (∀ fuel, c3Processor.process c3Replay (FrameRateDecorator target c3Inner) () fuel =
      none) := by
  have main : ∀ (σ : Type) (inner : Collector σ) (p : ReplayProcessor) (frame : Frame)
      (index fuel : ℕ) (current : ℚ) (ta : TimeAdvance) (s : σ),
      (∀ s' current', inner.process_frame s' p frame index current' =
        .ok (.NextFrame, s')) →
      current ≤ frame.time →
      collector_loop (FrameRateDecorator target inner) p frame index fuel current ta s =
        none := by
    intro σ inner p frame index fuel
    induction fuel with
    | zero =>
      intro current ta s _ hcur
      unfold collector_loop
      rw [if_pos hcur]
    | succ fuel ih =>
      intro current ta s hinner hcur
      unfold collector_loop
      rw [if_pos hcur]
      have hdec : (FrameRateDecorator target inner).process_frame s p frame index current =
          .ok (.Time (current + target), s) := by
        unfold FrameRateDecorator
        dsimp only []
        rw [hinner s current]
        rfl
      rw [hdec]
      exact ih (current + target) (.Time (current + target)) s hinner
        (le_trans (by linarith) hcur)
  refine ⟨main, ?_⟩
  intro fuel
  obtain ⟨p', hp'⟩ : ∃ p', c3Processor.process_frame_updates c3Frame 0 = .ok p' :=
    ⟨_, rfl⟩
  unfold ReplayProcessor.process
  rw [show c3Replay.network_frames = some [c3Frame] from rfl]
  dsimp only []
  rw [process_loop_cons_eq, hp']
  dsimp only []
  rw [main Unit c3Inner p' c3Frame 0 fuel c3Frame.time .NextFrame ()
    (fun _ _ => rfl) (le_refl c3Frame.time)]

theorem c3_framerate_nonpositive_diverges_witness :
    c3Processor.process c3Replay (FrameRateDecorator 0 c3Inner) () 5 = none :=
  (c3_framerate_nonpositive_diverges 0 (le_refl 0)).2 5

end SubtrActor
